import Mathlib

/-!
# Cedar Sells — verification of the property-listing core

Shallow embedding of the Cedar Sells repository (a Next.js real-estate
listing site backed by Salesforce and Supabase) together with proofs about
its spec-level claims: tier filtering, tier-based redaction, tier
assignment, idempotent upsert, error fallbacks, the Clerk webhook, and the
effective-tier computation of the database-backed listing route.

JavaScript values that matter to the embedded code paths are modelled
explicitly: optional strings carry JS truthiness (`undefined`/`null` and
the empty string are falsy), and numeric CRM fields are modelled by their
`parseFloat`/`parseInt` results (`none` standing for a missing or
unparsable value, whose `parseFloat(x) || 0` is `0`).
-/

namespace CedarSells

/-- JS truthiness of an optional string: `undefined`/`null` and `''` are
falsy, every other string is truthy. -/
def strTruthy : Option String → Bool
  | none => false
  | some s => s ≠ ""

/-- Byte-wise comparison of character lists (lexicographic), the order
underlying string comparison for the ISO timestamps this code sorts by. -/
def charListLe : List Char → List Char → Bool
  | [], _ => true
  | _ :: _, [] => false
  | a :: as, b :: bs => if a = b then charListLe as bs else a.val < b.val

/-- Lexicographic string comparison (total, used for ordering rows by
their ISO `updated_at` timestamps). -/
def strLe (a b : String) : Bool := charListLe a.data b.data

/-- `s.toLowerCase()` (ASCII, as produced for tier values). -/
def jsToLowerCase (s : String) : String := String.mk (s.data.map Char.toLower)

/-- `s.trim()`. -/
def jsTrim (s : String) : String :=
  String.mk (((s.data.dropWhile Char.isWhitespace).reverse.dropWhile
    Char.isWhitespace).reverse)

/-- Helper for `s.split(',')`: accumulates the current segment. -/
def splitCommaAux : List Char → List Char → List String
  | [], acc => [String.mk acc.reverse]
  | c :: cs, acc =>
    if c = ',' then String.mk acc.reverse :: splitCommaAux cs []
    else splitCommaAux cs (c :: acc)

/-- `s.split(',')`. -/
def jsSplitComma (s : String) : List String := splitCommaAux s.data []

/-- JS `a || b` for an optional string `a` and a string default `b`. -/
def jsOrStr (a : Option String) (b : String) : String :=
  if strTruthy a then a.getD "" else b

/-- A JS value appearing in a `price`-like field of an incoming record:
absent/null, a JSON number, the empty string, or a non-empty string
together with its `parseFloat` result (`none` = `NaN`). -/
inductive PriceField
  | missing
  | num (q : ℚ)
  | strEmpty
  | strVal (parsed : Option ℚ)
deriving DecidableEq, Repr

/-- JS truthiness of a `PriceField`: absent values, `0` and `''` are
falsy; any non-empty string (even one parsing to `0` or `NaN`) is truthy. -/
def PriceField.truthy : PriceField → Bool
  | .missing => false
  | .num q => q ≠ 0
  | .strEmpty => false
  | .strVal _ => true

/-- `parseFloat(x) || 0` applied to a `PriceField`: missing and unparsable
values (NaN) collapse to `0`, as does an explicit `0`. -/
def PriceField.parseFloatD : PriceField → ℚ
  | .missing => 0
  | .num q => q
  | .strEmpty => 0
  | .strVal p => p.getD 0

namespace Database

/-- The `Property` interface of `src/lib/database.ts` (camelCase,
matching the Salesforce-synced data). `id` is optional because the
database generates UUIDs. -/
structure Property where
  id : Option String := none
  name : String
  address : String
  city : String
  state : String
  zipCode : String
  price : ℚ
  bedrooms : Int
  bathrooms : ℚ
  squareFootage : Int
  lotSize : ℚ
  yearBuilt : Int
  propertyType : String
  description : String
  status : String
  images : List String
  tier : String
  salesforceId : String
  createdAt : String
  updatedAt : String
  lastSyncedAt : String
  leadSource : Option String := none
  investmentPath : Option String := none
  actualProfit : Option ℚ := none
  projectedProfit : Option ℚ := none
  salesDate : Option String := none
  salesforceStatus : Option String := none
deriving DecidableEq, Repr

/-- A row of the Supabase `properties` table (snake_case columns, see
`supabase/schema.sql`). -/
structure DbRow where
  id : String
  name : String
  address : String
  city : String
  state : String
  zip_code : String
  price : ℚ
  bedrooms : Int
  bathrooms : ℚ
  square_footage : Int
  lot_size : ℚ
  year_built : Int
  property_type : String
  description : String
  status : String
  images : List String
  tier : String
  salesforce_id : String
  created_at : String
  updated_at : String
  last_synced_at : String
  lead_source : Option String := none
  investment_path : Option String := none
  actual_profit : Option ℚ := none
  projected_profit : Option ℚ := none
  sales_date : Option String := none
  salesforce_status : Option String := none
deriving DecidableEq, Repr

/-- The snake_case → camelCase mapping applied to each row returned by
`PropertyDatabase.getProperties` (`src/lib/database.ts`, lines 94–123). -/
def rowToProperty (row : DbRow) : Property :=
  { id := some row.id
    name := row.name
    address := row.address
    city := row.city
    state := row.state
    zipCode := row.zip_code
    price := row.price
    bedrooms := row.bedrooms
    bathrooms := row.bathrooms
    squareFootage := row.square_footage
    lotSize := row.lot_size
    yearBuilt := row.year_built
    propertyType := row.property_type
    description := row.description
    status := row.status
    images := row.images
    tier := row.tier
    salesforceId := row.salesforce_id
    createdAt := row.created_at
    updatedAt := row.updated_at
    lastSyncedAt := row.last_synced_at
    leadSource := row.lead_source
    investmentPath := row.investment_path
    actualProfit := row.actual_profit
    projectedProfit := row.projected_profit
    salesDate := row.sales_date
    salesforceStatus := row.salesforce_status }

/-- The row-level predicate of the Supabase query built by
`getProperties`: `eq('status','Active')` and
`or('investment_path.neq.Contract Cancelled/Lost,investment_path.is.null')`. -/
def baseFilter (row : DbRow) : Bool :=
  row.status = "Active" &&
    (match row.investment_path with
     | none => true
     | some v => v ≠ "Contract Cancelled/Lost")

/-- The tier clause of the query: for a truthy non-`'public'` tier the
query is `in('tier', allowedTiers)` with `allowedTiers` all three tiers
for `'vip'` and `['public','registered']` otherwise; for a falsy or
`'public'` tier it is `eq('tier','public')`. -/
def tierFilter (tier : Option String) (rowTier : String) : Bool :=
  if strTruthy tier && tier.getD "" ≠ "public" then
    if tier.getD "" = "vip" then
      rowTier = "public" || rowTier = "registered" || rowTier = "vip"
    else
      rowTier = "public" || rowTier = "registered"
  else
    rowTier = "public"

/-- Insert a row into a list sorted by `updated_at` descending. -/
def insertByUpdatedDesc (r : DbRow) : List DbRow → List DbRow
  | [] => [r]
  | x :: xs =>
    if strLe x.updated_at r.updated_at then r :: x :: xs
    else x :: insertByUpdatedDesc r xs

/-- `order('updated_at', { ascending: false })`: sort rows by their
`updated_at` timestamp, newest first (insertion sort). -/
def orderByUpdatedDesc : List DbRow → List DbRow
  | [] => []
  | x :: xs => insertByUpdatedDesc x (orderByUpdatedDesc xs)

/-- The result set of the query sent by `getProperties`: filter by status,
investment path and tier, order by `updated_at` descending
(ISO timestamps, so string order), and apply the row limit. -/
def runQuery (store : List DbRow) (tier : Option String) (limit : Nat) : List DbRow :=
  (orderByUpdatedDesc (store.filter
    (fun r => baseFilter r && tierFilter tier r.tier))).take limit

/-- A database error as surfaced by the Supabase client. -/
structure DbError where
  message : String
deriving DecidableEq, Repr

/-- `PropertyDatabase.getProperties` (`src/lib/database.ts`, lines
65–124): on a query error it logs and returns `[]`; otherwise it maps the
returned rows from snake_case to camelCase. The store contents and the
error outcome of the external call are explicit inputs. -/
def getProperties (store : List DbRow) (tier : Option String) (limit : Nat)
    (dbError : Option DbError) : List Property :=
  match dbError with
  | some _ => []
  | none => (runQuery store tier limit).map rowToProperty

/-- The column values written for one property by
`PropertyDatabase.syncProperties` (`src/lib/database.ts`, lines 145–174):
every column except `id`, which the database generates. -/
structure DbWrite where
  name : String
  address : String
  city : String
  state : String
  zip_code : String
  price : ℚ
  bedrooms : Int
  bathrooms : ℚ
  square_footage : Int
  lot_size : ℚ
  year_built : Int
  property_type : String
  description : String
  status : String
  images : List String
  tier : String
  salesforce_id : String
  created_at : String
  updated_at : String
  last_synced_at : String
  lead_source : Option String := none
  investment_path : Option String := none
  actual_profit : Option ℚ := none
  projected_profit : Option ℚ := none
  sales_date : Option String := none
  salesforce_status : Option String := none
deriving DecidableEq, Repr

/-- The camelCase → snake_case mapping of `syncProperties` (the
`dbProperties` construction). -/
def toDbWrite (prop : Property) : DbWrite :=
  { name := prop.name
    address := prop.address
    city := prop.city
    state := prop.state
    zip_code := prop.zipCode
    price := prop.price
    bedrooms := prop.bedrooms
    bathrooms := prop.bathrooms
    square_footage := prop.squareFootage
    lot_size := prop.lotSize
    year_built := prop.yearBuilt
    property_type := prop.propertyType
    description := prop.description
    status := prop.status
    images := prop.images
    tier := prop.tier
    salesforce_id := prop.salesforceId
    created_at := prop.createdAt
    updated_at := prop.updatedAt
    last_synced_at := prop.lastSyncedAt
    lead_source := prop.leadSource
    investment_path := prop.investmentPath
    actual_profit := prop.actualProfit
    projected_profit := prop.projectedProfit
    sales_date := prop.salesDate
    salesforce_status := prop.salesforceStatus }

/-- A stored row assembled from a generated `id` and written columns. -/
def mkRow (id : String) (w : DbWrite) : DbRow :=
  { id := id
    name := w.name
    address := w.address
    city := w.city
    state := w.state
    zip_code := w.zip_code
    price := w.price
    bedrooms := w.bedrooms
    bathrooms := w.bathrooms
    square_footage := w.square_footage
    lot_size := w.lot_size
    year_built := w.year_built
    property_type := w.property_type
    description := w.description
    status := w.status
    images := w.images
    tier := w.tier
    salesforce_id := w.salesforce_id
    created_at := w.created_at
    updated_at := w.updated_at
    last_synced_at := w.last_synced_at
    lead_source := w.lead_source
    investment_path := w.investment_path
    actual_profit := w.actual_profit
    projected_profit := w.projected_profit
    sales_date := w.sales_date
    salesforce_status := w.salesforce_status }

/-- `ON CONFLICT ... DO UPDATE`: overwrite every supplied column of an
existing row, keeping its database-generated `id`. -/
def applyUpdate (row : DbRow) (w : DbWrite) : DbRow := mkRow row.id w

/-- The `properties` table plus the database's supply of fresh row ids
(abstracting UUID generation by a counter). -/
structure Store where
  rows : List DbRow
  nextId : Nat
deriving DecidableEq, Repr

/-- `DO UPDATE` applied to one stored row: if the batch holds a write for
this row's `salesforce_id`, overwrite its columns in place. -/
def updateRow (batch : List DbWrite) (row : DbRow) : DbRow :=
  match batch.find? (fun w => w.salesforce_id = row.salesforce_id) with
  | some w => applyUpdate row w
  | none => row

/-- The batch entries whose `salesforce_id` is not yet stored: these
become inserts. -/
def freshWrites (st : Store) (batch : List DbWrite) : List DbWrite :=
  batch.filter (fun w =>
    !(st.rows.any (fun row => row.salesforce_id = w.salesforce_id)))

/-- Postgres `INSERT ... ON CONFLICT (salesforce_id) DO UPDATE` over a
batch (`upsert(dbProperties, { onConflict: 'salesforce_id',
ignoreDuplicates: false })`): a batch that touches the same
`salesforce_id` twice errors ("cannot affect row a second time");
otherwise each row matching a batch key is overwritten in place and each
batch entry with a fresh key is appended with a generated id. -/
def upsertBatch (st : Store) (batch : List DbWrite) : Except DbError Store :=
  if (batch.map (·.salesforce_id)).Nodup then
    .ok { rows := st.rows.map (updateRow batch) ++
            (freshWrites st batch).enum.map
              (fun p => mkRow (toString (st.nextId + p.1)) p.2)
          nextId := st.nextId + (freshWrites st batch).length }
  else
    .error ⟨"ON CONFLICT DO UPDATE command cannot affect row a second time"⟩

/-- `PropertyDatabase.syncProperties` (`src/lib/database.ts`, lines
143–189): map the properties to their column values and upsert them with
conflict resolution on `salesforce_id`; a database error propagates
(the function throws). -/
def syncProperties (properties : List Property) (st : Store) :
    Except DbError Store :=
  upsertBatch st (properties.map toDbWrite)

end Database

namespace Types

/-- `PropertyImage` of `src/types/property.ts`. -/
structure PropertyImage where
  id : String
  url : String
  altText : Option String := none
  order : Int
deriving DecidableEq, Repr

/-- `FlipMetrics` of `src/types/property.ts`. -/
structure FlipMetrics where
  arv : ℚ
  rehabEstimate : ℚ
  spread : ℚ
  roi : ℚ
deriving DecidableEq, Repr

/-- `RentalMetrics` of `src/types/property.ts`; `monthlyRent` is optional. -/
structure RentalMetrics where
  grossYield : ℚ
  capRate : ℚ
  monthlyRent : Option ℚ := none
deriving DecidableEq, Repr

/-- The address object of the `Property` interface. -/
structure Address where
  street : String
  city : String
  state : String
  zipCode : String
  parish : String
deriving DecidableEq, Repr

/-- The `Property` interface of `src/types/property.ts` (the Salesforce
Transaction view served by the detail route). The string-union types
(`DealType`, `Market`, `PropertyStatus`, `AccessTier`) are modelled by
their runtime representation, `String`. -/
structure Property where
  id : String
  title : String
  description : String
  address : Address
  bedrooms : ℚ
  bathrooms : ℚ
  squareFeet : ℚ
  lotSize : Option ℚ := none
  yearBuilt : Option ℚ := none
  propertyType : String
  dealType : String
  market : String
  listPrice : ℚ
  purchasePrice : Option ℚ := none
  status : String
  accessTier : String
  isOffMarket : Bool
  images : List PropertyImage
  thumbnailUrl : String
  flipMetrics : Option FlipMetrics := none
  rentalMetrics : Option RentalMetrics := none
  createdDate : String
  updatedDate : String
  ownerId : String
  tags : Option (List String) := none
  notes : Option String := none
  showingInstructions : Option String := none
deriving DecidableEq, Repr

/-- `SalesforceTransaction` of `src/types/property.ts`: the raw CRM
record. Optional numeric CRM fields are `Option ℚ` (`none` = absent). -/
structure SalesforceTransaction where
  Id : String
  Name : String
  Description__c : Option String := none
  Street_Address__c : String
  City__c : String
  State__c : String
  Zip_Code__c : String
  Parish__c : String
  Bedrooms__c : ℚ
  Bathrooms__c : ℚ
  Square_Feet__c : ℚ
  Lot_Size__c : Option ℚ := none
  Year_Built__c : Option ℚ := none
  Property_Type__c : String
  Deal_Type__c : String
  Market__c : String
  List_Price__c : ℚ
  Purchase_Price__c : Option ℚ := none
  Status__c : String
  Access_Tier__c : String
  Is_Off_Market__c : Option Bool := none
  ARV__c : Option ℚ := none
  Rehab_Estimate__c : Option ℚ := none
  Spread__c : Option ℚ := none
  ROI__c : Option ℚ := none
  Gross_Yield__c : Option ℚ := none
  Cap_Rate__c : Option ℚ := none
  Monthly_Rent__c : Option ℚ := none
  CreatedDate : String
  LastModifiedDate : String
  OwnerId : String
  Tags__c : Option String := none
  Notes__c : Option String := none
  Showing_Instructions__c : Option String := none
deriving DecidableEq, Repr

end Types

/-- `transformSalesforceTransaction` (`src/lib/salesforce.ts`, lines
211–259): field-by-field mapping from the CRM transaction to the
`Property` interface. `x || 0` on an optional number is `Option.getD 0`,
`x || false` on an optional boolean is `Option.getD false`. -/
def transformSalesforceTransaction (transaction : Types.SalesforceTransaction)
    (images : List Types.PropertyImage := []) : Types.Property :=
  { id := transaction.Id
    title := transaction.Name
    description := jsOrStr transaction.Description__c ""
    address :=
      { street := transaction.Street_Address__c
        city := transaction.City__c
        state := transaction.State__c
        zipCode := transaction.Zip_Code__c
        parish := transaction.Parish__c }
    bedrooms := transaction.Bedrooms__c
    bathrooms := transaction.Bathrooms__c
    squareFeet := transaction.Square_Feet__c
    lotSize := transaction.Lot_Size__c
    yearBuilt := transaction.Year_Built__c
    propertyType := transaction.Property_Type__c
    dealType := transaction.Deal_Type__c
    market := transaction.Market__c
    listPrice := transaction.List_Price__c
    purchasePrice := transaction.Purchase_Price__c
    status := transaction.Status__c
    accessTier := transaction.Access_Tier__c
    isOffMarket := transaction.Is_Off_Market__c.getD false
    images := images
    thumbnailUrl :=
      match images with
      | [] => "/placeholder-house.jpg"
      | img :: _ => img.url
    flipMetrics :=
      if transaction.Deal_Type__c = "Fix & Flip" then
        some { arv := transaction.ARV__c.getD 0
               rehabEstimate := transaction.Rehab_Estimate__c.getD 0
               spread := transaction.Spread__c.getD 0
               roi := transaction.ROI__c.getD 0 }
      else none
    rentalMetrics :=
      if transaction.Deal_Type__c = "Rental" then
        some { grossYield := transaction.Gross_Yield__c.getD 0
               capRate := transaction.Cap_Rate__c.getD 0
               monthlyRent := transaction.Monthly_Rent__c }
      else none
    createdDate := transaction.CreatedDate
    updatedDate := transaction.LastModifiedDate
    ownerId := transaction.OwnerId
    tags :=
      if strTruthy transaction.Tags__c then
        some ((jsSplitComma (transaction.Tags__c.getD "")).map jsTrim)
      else none
    notes := transaction.Notes__c
    showingInstructions := transaction.Showing_Instructions__c }

/-- An external call issued by a route handler or the sync flow while
serving a request. -/
inductive ExtCall
  | sfGetTransaction (id : String)
  | cloudinaryGetPropertyImages (id : String)
  | sfQuery
  | sfCreateLead
  | sfAuth
  | dbUpsert
  | dbUpdateSyncStatus
  | dbGetProperties
  | dbGetLastSyncTime
deriving DecidableEq, Repr

namespace DetailRoute

/-- Outcome of `salesforceClient.getTransaction` as observed by the detail
route's catch block: success, a NOT_FOUND error (the thrown message
contains `'NOT_FOUND'`), or any other error. -/
inductive FetchResult
  | ok (transaction : Types.SalesforceTransaction)
  | notFound
  | otherError (message : String)
deriving DecidableEq, Repr

/-- The response of the property-detail route, as far as status code and
served property go. -/
structure Response where
  status : Nat
  success : Bool
  property : Option Types.Property := none
deriving DecidableEq, Repr

/-- The access-tier filtering block of the detail route
(`src/unnamed/part_005`, lines 63–81): for a `'public'` viewer the street
is masked, showing instructions and notes are dropped, the flip spread is
zeroed and the monthly rent removed; for any other tier the property is
returned untouched. -/
def applyTierFilter (accessTier : String) (property : Types.Property) :
    Types.Property :=
  if accessTier = "public" then
    { property with
        address := { property.address with
          street := "Address available after registration" }
        showingInstructions := none
        notes := none
        flipMetrics := property.flipMetrics.map (fun m => { m with spread := 0 })
        rentalMetrics := property.rentalMetrics.map
          (fun m => { m with monthlyRent := none }) }
  else property

/-- The detail route's viewer tier: `'registered'` for any signed-in user
(`isVip` is the hard-coded literal `false`), `'public'` otherwise. -/
def accessTierOf (userId : Option String) : String :=
  if userId.isSome then "registered" else "public"

/-- `GET` of the property-detail route (`src/unnamed/part_005`): fetch the
transaction from Salesforce, enforce the tier gates (403 for VIP-only
properties, 401 for registered-only ones), fetch the Cloudinary images,
transform, redact by viewer tier, and respond. The returned trace lists
the external calls made, in order (`cloudinaryClient.getPropertyImages`
never throws: it catches internally and resolves to a list). -/
def GET (userId : Option String) (propertyId : String)
    (fetchResult : FetchResult) (images : List Types.PropertyImage) :
    Response × List ExtCall :=
  let accessTier := accessTierOf userId
  match fetchResult with
  | .notFound => (⟨404, false, none⟩, [.sfGetTransaction propertyId])
  | .otherError _ => (⟨500, false, none⟩, [.sfGetTransaction propertyId])
  | .ok transaction =>
    if transaction.Access_Tier__c = "vip" && accessTier ≠ "vip" then
      (⟨403, false, none⟩, [.sfGetTransaction propertyId])
    else if transaction.Access_Tier__c = "registered" && accessTier = "public" then
      (⟨401, false, none⟩, [.sfGetTransaction propertyId])
    else
      let property := applyTierFilter accessTier
        (transformSalesforceTransaction transaction images)
      (⟨200, true, some property⟩,
        [.sfGetTransaction propertyId, .cloudinaryGetPropertyImages propertyId])

end DetailRoute

/-- The price-threshold tier derivation shared (textually duplicated) by
`SalesforceSync.transformProperties` and the upsert endpoint:
`price >= 1000000` is `'vip'`, `price >= 300000` is `'registered'`,
anything lower is `'public'`. -/
def autoTierFromPrice (price : ℚ) : String :=
  if price ≥ 1000000 then "vip"
  else if price ≥ 300000 then "registered"
  else "public"

namespace SalesforceSync

/-- The raw `Image_URLs__c` payload: either valid JSON (an array of URLs)
or an arbitrary string handled by the comma-split fallback. -/
inductive ImagesField
  | jsonList (urls : List String)
  | csv (s : String)
deriving DecidableEq, Repr

/-- Image parsing of `transformProperties`
(`src/unnamed/part_008`, lines 123–133): `JSON.parse` when the field is
valid JSON, otherwise split on commas, trim, and drop empty entries
(`filter(Boolean)`); an absent field yields `[]`. -/
def parseImages : Option ImagesField → List String
  | none => []
  | some (.jsonList urls) => urls
  | some (.csv s) => ((jsSplitComma s).map jsTrim).filter (· ≠ "")

/-- A `Property__c` record as returned by the sync's SOQL query
(`src/unnamed/part_008`, lines 88–112). Numeric CRM fields are modelled
by their `parseInt`/`parseFloat` results (`none` = missing or unparsable,
i.e. `NaN`); `Price__c` keeps its raw shape because the tier derivation
inspects it. -/
structure SyncRecord where
  Id : String
  Name : Option String := none
  Address__c : Option String := none
  City__c : Option String := none
  State__c : Option String := none
  Zip_Code__c : Option String := none
  Price__c : PriceField := .missing
  Bedrooms__c : Option Int := none
  Bathrooms__c : Option ℚ := none
  Square_Footage__c : Option Int := none
  Lot_Size__c : Option ℚ := none
  Year_Built__c : Option Int := none
  Property_Type__c : Option String := none
  Description__c : Option String := none
  Status__c : Option String := none
  Image_URLs__c : Option ImagesField := none
  Tier__c : Option String := none
  CreatedDate : String
  LastModifiedDate : String
deriving DecidableEq, Repr

/-- Tier assignment of `transformProperties` (`src/unnamed/part_008`,
lines 135–149): a truthy `Tier__c` is used lowercased, otherwise the tier
is derived from `parseFloat(record.Price__c) || 0` by the price
thresholds. -/
def assignedTier (record : SyncRecord) : String :=
  if strTruthy record.Tier__c then jsToLowerCase (record.Tier__c.getD "")
  else autoTierFromPrice record.Price__c.parseFloatD

/-- The per-record body of `SalesforceSync.transformProperties`
(`src/unnamed/part_008`, lines 121–174). `now` is the
`new Date().toISOString()` value used for `lastSyncedAt`. -/
def transformRecord (now : String) (record : SyncRecord) : Database.Property :=
  { id := some record.Id
    name := jsOrStr record.Name "Unnamed Property"
    address := jsOrStr record.Address__c ""
    city := jsOrStr record.City__c ""
    state := jsOrStr record.State__c ""
    zipCode := jsOrStr record.Zip_Code__c ""
    price := record.Price__c.parseFloatD
    bedrooms := record.Bedrooms__c.getD 0
    bathrooms := record.Bathrooms__c.getD 0
    squareFootage := record.Square_Footage__c.getD 0
    lotSize := record.Lot_Size__c.getD 0
    yearBuilt := record.Year_Built__c.getD 0
    propertyType := jsOrStr record.Property_Type__c "Unknown"
    description := jsOrStr record.Description__c ""
    status := jsOrStr record.Status__c "Active"
    images := parseImages record.Image_URLs__c
    tier := assignedTier record
    salesforceId := record.Id
    createdAt := record.CreatedDate
    updatedAt := record.LastModifiedDate
    lastSyncedAt := now }

/-- `SalesforceSync.transformProperties`: map every fetched record. -/
def transformProperties (now : String) (salesforceRecords : List SyncRecord) :
    List Database.Property :=
  salesforceRecords.map (transformRecord now)

/-- The `{ success, count, errors }` value returned by
`SalesforceSync.syncProperties`. -/
structure SyncResult where
  success : Bool
  count : Nat
  errors : List String
deriving DecidableEq, Repr

/-- `SalesforceSync.syncProperties` (`src/unnamed/part_008`, lines
15–60): authenticate with service credentials, run the SOQL query, stop
early (successfully) when no records come back, otherwise transform and
upsert into the store and then update the sync status; any thrown error
is caught and reported as a failed result. The outcomes of the external
calls are explicit inputs; the trace lists the calls made, in order
(`updateSyncStatus` logs its own errors and never throws). -/
def syncProperties (now : String) (authOutcome : Except String Unit)
    (queryOutcome : Except String (List SyncRecord))
    (st : Database.Store) : SyncResult × Database.Store × List ExtCall :=
  match authOutcome with
  | .error e => (⟨false, 0, [e]⟩, st, [.sfAuth])
  | .ok _ =>
    match queryOutcome with
    | .error e => (⟨false, 0, [e]⟩, st, [.sfAuth, .sfQuery])
    | .ok salesforceProperties =>
      if salesforceProperties.length = 0 then
        (⟨true, 0, ["No properties found in Salesforce"]⟩, st,
          [.sfAuth, .sfQuery])
      else
        match Database.syncProperties
            (transformProperties now salesforceProperties) st with
        | .error e =>
          (⟨false, 0, [e.message]⟩, st, [.sfAuth, .sfQuery, .dbUpsert])
        | .ok st2 =>
          (⟨true, (transformProperties now salesforceProperties).length, []⟩,
            st2, [.sfAuth, .sfQuery, .dbUpsert, .dbUpdateSyncStatus])

end SalesforceSync

namespace UpsertRoute

/-- The `images` value of an upsert request body: an array, a string
(comma-separated), or anything else (including absent). -/
inductive ImagesInput
  | arr (urls : List String)
  | str (s : String)
  | other
deriving DecidableEq, Repr

/-- One property object of the upsert request body
(`src/app/api/properties-db/upsert/route.ts`). Numeric fields are
modelled by their parsed values (`none` = missing); `price` keeps its raw
shape because the tier derivation tests its truthiness. -/
structure UpsertInput where
  tier : Option String := none
  price : PriceField := .missing
  name : Option String := none
  address : Option String := none
  city : Option String := none
  state : Option String := none
  zip_code : Option String := none
  zipCode : Option String := none
  bedrooms : Option Int := none
  bathrooms : Option ℚ := none
  square_footage : Option Int := none
  squareFootage : Option Int := none
  lot_size : Option ℚ := none
  lotSize : Option ℚ := none
  year_built : Option Int := none
  yearBuilt : Option Int := none
  property_type : Option String := none
  propertyType : Option String := none
  description : Option String := none
  status : Option String := none
  images : ImagesInput := .other
  salesforce_id : Option String := none
  id : Option String := none
  created_at : Option String := none
  created_date : Option String := none
  createdAt : Option String := none
  updated_at : Option String := none
  last_modified_date : Option String := none
  updatedAt : Option String := none
  lead_source : Option String := none
  investment_path : Option String := none
  actual_profit : Option ℚ := none
  projected_profit : Option ℚ := none
  sales_date : Option String := none
  salesforce_status : Option String := none
deriving DecidableEq, Repr

/-- JS `a || b` on two optional strings. -/
def jsOrOpt (a b : Option String) : Option String :=
  if strTruthy a then a else b

/-- JS `a || b` on two parsed optional numbers (`0` and absent are falsy). -/
def jsOrNumInt (a b : Option Int) : Option Int :=
  if a.getD 0 ≠ 0 then a else b

/-- JS `a || b` on two parsed optional rationals. -/
def jsOrNumQ (a b : Option ℚ) : Option ℚ :=
  if a.getD 0 ≠ 0 then a else b

/-- JS `x ? parseFloat(x) : undefined` on a parsed optional rational. -/
def numOptQ (a : Option ℚ) : Option ℚ :=
  if a.getD 0 ≠ 0 then a else none

/-- JS `x || undefined` on an optional string. -/
def strOptNorm (a : Option String) : Option String :=
  if strTruthy a then a else none

/-- Tier assignment of the upsert endpoint
(`src/app/api/properties-db/upsert/route.ts`, lines 26–37): a truthy
`prop.tier` is used verbatim (`prop.tier || 'public'`); with no tier and a
truthy price the thresholds on `parseFloat(prop.price) || 0` apply;
otherwise the tier stays `'public'`. -/
def routeTier (prop : UpsertInput) : String :=
  let tier := jsOrStr prop.tier "public"
  if !(strTruthy prop.tier) && prop.price.truthy then
    autoTierFromPrice prop.price.parseFloatD
  else tier

/-- The images normalization of the upsert endpoint: arrays pass through,
strings are comma-split, trimmed and stripped of empties, anything else
becomes `[]`. -/
def parseImages : ImagesInput → List String
  | .arr urls => urls
  | .str s => ((jsSplitComma s).map jsTrim).filter (· ≠ "")
  | .other => []

/-- The per-property transform of the upsert endpoint
(`src/app/api/properties-db/upsert/route.ts`, lines 25–70), mapping a raw
body entry to the `Property` shape handed to
`PropertyDatabase.syncProperties`. `now` is `new Date().toISOString()`.
An absent `salesforce_id`/`id` would write a null unique key (rejected by
the schema's NOT NULL); it is modelled as the empty string. -/
def transformProp (now : String) (prop : UpsertInput) : Database.Property :=
  { id := none
    name := jsOrStr prop.name "Unnamed Property"
    address := jsOrStr prop.address ""
    city := jsOrStr prop.city ""
    state := jsOrStr prop.state ""
    zipCode := jsOrStr (jsOrOpt prop.zip_code prop.zipCode) ""
    price := prop.price.parseFloatD
    bedrooms := prop.bedrooms.getD 0
    bathrooms := prop.bathrooms.getD 0
    squareFootage := (jsOrNumInt prop.square_footage prop.squareFootage).getD 0
    lotSize := (jsOrNumQ prop.lot_size prop.lotSize).getD 0
    yearBuilt := (jsOrNumInt prop.year_built prop.yearBuilt).getD 0
    propertyType := jsOrStr (jsOrOpt prop.property_type prop.propertyType) "Unknown"
    description := jsOrStr prop.description ""
    status := jsOrStr prop.status "Active"
    images := parseImages prop.images
    tier := routeTier prop
    salesforceId := (jsOrOpt prop.salesforce_id prop.id).getD ""
    createdAt := jsOrStr (jsOrOpt (jsOrOpt prop.created_at prop.created_date) prop.createdAt) now
    updatedAt := jsOrStr (jsOrOpt (jsOrOpt prop.updated_at prop.last_modified_date) prop.updatedAt) now
    lastSyncedAt := now
    leadSource := strOptNorm prop.lead_source
    investmentPath := strOptNorm prop.investment_path
    actualProfit := numOptQ prop.actual_profit
    projectedProfit := numOptQ prop.projected_profit
    salesDate := strOptNorm prop.sales_date
    salesforceStatus := strOptNorm prop.salesforce_status }

/-- The write performed by `POST`: transform every body entry and hand
the batch to `PropertyDatabase.syncProperties`. -/
def upsertWrite (now : String) (body : List UpsertInput) (st : Database.Store) :
    Except Database.DbError Database.Store :=
  Database.syncProperties (body.map (transformProp now)) st

/-- `POST` of the upsert endpoint
(`src/app/api/properties-db/upsert/route.ts`): a failed API-key check is
401 without touching the database; otherwise the transformed batch is
upserted (a thrown database error is caught as a 500 before the
sync-status update runs) and then the sync status is updated. The trace
lists the external calls made, in order. -/
def POST (authOk : Bool) (now : String) (body : List UpsertInput)
    (st : Database.Store) : Nat × Database.Store × List ExtCall :=
  if !authOk then (401, st, [])
  else
    match upsertWrite now body st with
    | .error _ => (500, st, [.dbUpsert])
    | .ok st2 => (200, st2, [.dbUpsert, .dbUpdateSyncStatus])

end UpsertRoute

namespace PropertiesRoute

/-- A `Left_Main__Transactions__c` record as returned by the SOQL query of
`src/app/api/properties/route.ts`. -/
structure LmRecord where
  Id : String
  Name : Option String := none
  Left_Main__Street_Address__c : Option String := none
  Left_Main__City__c : Option String := none
  Left_Main__State__c : Option String := none
  Left_Main__Zipcode__c : Option String := none
  Left_Main__Dispo_Status__c : Option String := none
  Left_Main__Contract_Purchase_Price__c : Option ℚ := none
  CreatedDate : Option String := none
  LastModifiedDate : Option String := none
deriving DecidableEq, Repr

/-- An image object as built by `transformSalesforceRecord` (its key is
`alt`, not the `altText` of the `PropertyImage` interface). -/
structure LmImage where
  id : String
  url : String
  alt : String
  order : Int
deriving DecidableEq, Repr

/-- The flip-metrics object literal of `transformSalesforceRecord` (its
field set differs from the `FlipMetrics` interface). -/
structure LmFlipMetrics where
  purchasePrice : ℚ
  estimatedRehabCost : ℚ
  afterRepairValue : ℚ
  spread : ℚ
  estimatedTimeline : ℚ
deriving DecidableEq, Repr

/-- The expense breakdown of the route's rental-metrics object literal. -/
structure LmRentalExpenses where
  insurance : ℚ
  taxes : ℚ
  maintenance : ℚ
deriving DecidableEq, Repr

/-- The rental-metrics object literal of `transformSalesforceRecord`. -/
structure LmRentalMetrics where
  monthlyRent : ℚ
  annualRent : ℚ
  capRate : ℚ
  cashFlow : ℚ
  expenses : LmRentalExpenses
deriving DecidableEq, Repr

/-- The property object actually constructed by
`transformSalesforceRecord` (JS is structural: the literal's field set is
modelled as written, not as the `Property` interface it is annotated
with). -/
structure LmProperty where
  id : String
  title : String
  dealType : String
  market : String
  listPrice : ℚ
  address : Types.Address
  bedrooms : ℚ
  bathrooms : ℚ
  squareFeet : ℚ
  lotSize : ℚ
  yearBuilt : ℚ
  description : String
  images : List LmImage
  flipMetrics : Option LmFlipMetrics := none
  rentalMetrics : Option LmRentalMetrics := none
  isActive : Bool
  isOffMarket : Bool
  accessTier : String
  postedDate : String
  updatedDate : String
deriving DecidableEq, Repr

/-- The `cityParishMap` object literal of `getParishFromCity`. -/
def cityParishMap : List (String × String) :=
  [("lafayette", "Lafayette"), ("baton rouge", "East Baton Rouge"),
   ("new orleans", "Orleans"), ("shreveport", "Caddo"),
   ("lake charles", "Calcasieu"), ("monroe", "Ouachita"),
   ("alexandria", "Rapides")]

/-- `getParishFromCity`: look the lowercased city up, defaulting to
`'Lafayette'`. -/
def getParishFromCity (city : String) : String :=
  ((cityParishMap.find? (fun p => p.1 = jsToLowerCase city)).map (·.2)).getD
    "Lafayette"

/-- The `cityMarketMap` object literal of `getMarketFromCity`. -/
def cityMarketMap : List (String × String) :=
  [("lafayette", "lafayette"), ("baton rouge", "baton-rouge"),
   ("new orleans", "new-orleans"), ("shreveport", "shreveport"),
   ("lake charles", "lake-charles"), ("monroe", "monroe"),
   ("alexandria", "alexandria")]

/-- `getMarketFromCity`: look the lowercased city up, defaulting to
`'lafayette'`. -/
def getMarketFromCity (city : String) : String :=
  ((cityMarketMap.find? (fun p => p.1 = jsToLowerCase city)).map (·.2)).getD
    "lafayette"

/-- `new Date(s).toISOString().split('T')[0]` for the ISO timestamps
Salesforce returns: the date part before the `'T'`. -/
def isoDateOnly (s : String) : String :=
  String.mk (s.data.takeWhile (· ≠ 'T'))

/-- `transformSalesforceRecord` of `src/app/api/properties/route.ts`
(lines 9–70). `today` stands for `new Date().toISOString().split('T')[0]`.
The `dealType === 'flip'` / `'rental'` metric branches are embedded as
written; `dealType` is the literal `'Wholesale'`, so they never fire. -/
def transformSalesforceRecord (today : String) (record : LmRecord) :
    LmProperty :=
  let dealType := "Wholesale"
  let street := jsOrStr record.Left_Main__Street_Address__c "Address Not Available"
  let city := jsOrStr record.Left_Main__City__c "City Not Available"
  let state := jsOrStr record.Left_Main__State__c "LA"
  let zipCode := jsOrStr record.Left_Main__Zipcode__c ""
  { id := record.Id
    title := jsOrStr record.Name (street ++ ", " ++ city)
    dealType := dealType
    market := getMarketFromCity city
    listPrice := 0
    address :=
      { street := street, city := city, state := state, zipCode := zipCode
        parish := getParishFromCity city }
    bedrooms := 3
    bathrooms := 2
    squareFeet := 1200
    lotSize := 1/4
    yearBuilt := 1990
    description := "Investment property in " ++ city ++ ". " ++
      (if strTruthy record.Left_Main__Dispo_Status__c then
        "Status: " ++ record.Left_Main__Dispo_Status__c.getD ""
      else "")
    images := [{ id := record.Id ++ "-1"
                 url := "https://images.unsplash.com/photo-1568605114967-8130f3a36994?w=800"
                 alt := "Property photo"
                 order := 1 }]
    flipMetrics :=
      if dealType = "flip" then
        some { purchasePrice := 50000, estimatedRehabCost := 15000
               afterRepairValue := 95000, spread := 5000
               estimatedTimeline := 90 }
      else none
    rentalMetrics :=
      if dealType = "rental" then
        some { monthlyRent := 1200, annualRent := 14400, capRate := 17/2
               cashFlow := 400
               expenses := { insurance := 100, taxes := 200, maintenance := 200 } }
      else none
    isActive := true
    isOffMarket := record.Left_Main__Dispo_Status__c = some "Closed/Won"
    accessTier := "registered"
    postedDate :=
      if strTruthy record.CreatedDate then isoDateOnly (record.CreatedDate.getD "")
      else today
    updatedDate :=
      if strTruthy record.LastModifiedDate then
        isoDateOnly (record.LastModifiedDate.getD "")
      else today }

/-- The payload of a successful Salesforce SOQL response. -/
structure SfListData where
  records : List LmRecord
  done : Bool
  nextRecordsUrl : Option String := none
  totalSize : Nat := 0
deriving DecidableEq, Repr

/-- The JSON body of the listing route's response (`success`, `status`,
and the `data` fields the claims inspect). -/
structure ListResponse where
  success : Bool
  status : Nat
  properties : List LmProperty
  totalCount : Nat
  hasMore : Bool
deriving DecidableEq, Repr

/-- `GET` of the Salesforce-backed listing route
(`src/app/api/properties/route.ts`): without both token cookies it
responds 200/success with an empty list (lines 139–151, no external
call); with tokens it issues the SOQL query once, falling back to
200/success with an empty list if the query throws (lines 225–237), and
otherwise transforming and deal-type-filtering the records. The trace
lists the external calls made. -/
def GET (dealTypes markets : List String) (limit offset : Nat)
    (userId : Option String) (accessToken instanceUrl : Option String)
    (queryOutcome : Except String SfListData) (today : String) :
    ListResponse × List ExtCall :=
  if !(strTruthy accessToken) || !(strTruthy instanceUrl) then
    (⟨true, 200, [], 0, false⟩, [])
  else
    match queryOutcome with
    | .error _ => (⟨true, 200, [], 0, false⟩, [.sfQuery])
    | .ok data =>
      let properties := data.records.map (transformSalesforceRecord today)
      let filtered :=
        if dealTypes.length > 0 then
          properties.filter (fun p => dealTypes.contains p.dealType)
        else properties
      (⟨true, 200, filtered, filtered.length, !data.done⟩, [.sfQuery])

end PropertiesRoute

namespace DbRoute

/-- The user tier of the database-backed listing route
(`src/unnamed/part_007`, lines 17–29): `'registered'` for a signed-in
user, `'public'` otherwise, also when `auth()` itself fails (the catch
block). -/
def userTierOf (authResult : Except Unit (Option String)) : String :=
  match authResult with
  | .error _ => "public"
  | .ok none => "public"
  | .ok (some _) => "registered"

/-- The effective-tier computation (`src/unnamed/part_007`, lines 32–34):
a `'vip'` user gets the requested tier; a `'registered'` user gets the
requested tier unless it is `'vip'`; everyone else gets `'public'`. -/
def effectiveTier (userTier tier : String) : String :=
  if userTier = "vip" then tier
  else if userTier = "registered" && tier ≠ "vip" then tier
  else "public"

/-- `searchParams.get('tier') || 'public'`. -/
def requestedTier (tierParam : Option String) : String :=
  jsOrStr tierParam "public"

/-- The tier value the route passes to `PropertyDatabase.getProperties`. -/
def dbEffectiveTier (authResult : Except Unit (Option String))
    (tierParam : Option String) : String :=
  effectiveTier (userTierOf authResult) (requestedTier tierParam)

/-- The JSON body of the database-backed listing route's response. -/
structure DbListResponse where
  success : Bool
  status : Nat
  properties : List Database.Property
  totalCount : Nat
  hasMore : Bool
  tier : String
  lastSyncedAt : Option String := none
deriving DecidableEq, Repr

/-- `GET` of the database-backed listing route (`src/unnamed/part_007`):
compute the effective tier, fetch with it, and answer with the
properties, their count, and the tier actually queried. -/
def GET (tierParam : Option String) (limit : Nat)
    (authResult : Except Unit (Option String)) (store : List Database.DbRow)
    (dbError : Option Database.DbError) (lastSync : Option String) :
    DbListResponse :=
  let eff := dbEffectiveTier authResult tierParam
  let properties := Database.getProperties store (some eff) limit dbError
  { success := true, status := 200, properties := properties
    totalCount := properties.length
    hasMore := properties.length = limit
    tier := eff, lastSyncedAt := lastSync }

/-- `GET` of the database-backed listing route paired with its
external-call trace: the route body is branch-free, unconditionally
awaiting `PropertyDatabase.getProperties` and then
`PropertyDatabase.getLastSyncTime` (neither throws: both swallow their
errors), so every request issues exactly these two Supabase calls. -/
def GETWithCalls (tierParam : Option String) (limit : Nat)
    (authResult : Except Unit (Option String)) (store : List Database.DbRow)
    (dbError : Option Database.DbError) (lastSync : Option String) :
    DbListResponse × List ExtCall :=
  (GET tierParam limit authResult store dbError lastSync,
    [.dbGetProperties, .dbGetLastSyncTime])

end DbRoute

namespace ClerkWebhook

/-- An entry of `user.email_addresses`. -/
structure EmailAddress where
  email_address : String
  primary : Bool
deriving DecidableEq, Repr

/-- An entry of `user.phone_numbers`. -/
structure PhoneNumber where
  phone_number : String
  primary : Bool
deriving DecidableEq, Repr

/-- The Clerk user payload (`src/app/api/webhooks/clerk/route.ts`, lines
9–25), with the `public_metadata` fields the handler reads. -/
structure ClerkUser where
  id : String
  email_addresses : List EmailAddress := []
  first_name : Option String := none
  last_name : Option String := none
  phone_numbers : List PhoneNumber := []
  company : Option String := none
  investorType : Option String := none
  interests : Option (List String) := none
deriving DecidableEq, Repr

/-- A verified Clerk webhook event. -/
structure ClerkWebhookEvent where
  type : String
  data : ClerkUser
deriving DecidableEq, Repr

/-- The Lead body sent to Salesforce (`SalesforceLeadPayload`). -/
structure SalesforceLeadPayload where
  FirstName : String
  LastName : String
  Email : String
  Phone : Option String := none
  Company : Option String := none
  LeadSource : String
  Status : String
  Investor_Type__c : Option String := none
  Interests__c : Option String := none
  Website_User_ID__c : String
deriving DecidableEq, Repr

/-- The Salesforce create-Lead response body. -/
structure LeadResult where
  id : String
  success : Bool
deriving DecidableEq, Repr

/-- `interests.join(';')`. -/
def joinSemicolon : List String → String
  | [] => ""
  | [x] => x
  | x :: xs => x ++ ";" ++ joinSemicolon xs

/-- The webhook handler's observable outcome: the HTTP status and the
Lead payload sent to Salesforce (`none` when no `createLead` call was
made). -/
structure WebhookResult where
  status : Nat
  leadPayload : Option SalesforceLeadPayload := none
deriving DecidableEq, Repr

/-- The Lead data built for a verified `user.created` event (lines
102–115 of the handler). -/
def buildLeadData (user : ClerkUser) (primaryEmail : String) :
    SalesforceLeadPayload :=
  { FirstName := jsOrStr user.first_name "Unknown"
    LastName := jsOrStr user.last_name "Investor"
    Email := primaryEmail
    Phone := (user.phone_numbers.find? (·.primary)).map (·.phone_number)
    Company := UpsertRoute.strOptNorm user.company
    LeadSource := "Website Registration"
    Status := "New"
    Investor_Type__c := UpsertRoute.strOptNorm user.investorType
    Interests__c := user.interests.map joinSemicolon
    Website_User_ID__c := user.id }

/-- `POST` of the Clerk webhook route
(`src/app/api/webhooks/clerk/route.ts`, lines 36–183). Inputs: whether
`CLERK_WEBHOOK_SECRET` is set, the three svix headers, the result of
signature verification (`none` = `webhook.verify` threw), and the outcome
of the Salesforce `createLead` call (only consulted if one is made).
The `if (!primaryEmail)` guard is a JS-truthiness check on the extracted
address, so a primary entry carrying the empty string is rejected with
400 exactly like a missing one. -/
def POST (secretConfigured : Bool)
    (svixId svixTimestamp svixSignature : Option String)
    (verified : Option ClerkWebhookEvent)
    (createLeadOutcome : Except String LeadResult) : WebhookResult :=
  if !secretConfigured then ⟨500, none⟩
  else if !(strTruthy svixId) || !(strTruthy svixTimestamp) ||
      !(strTruthy svixSignature) then ⟨400, none⟩
  else
    match verified with
    | none => ⟨400, none⟩
    | some evt =>
      if evt.type = "user.created" then
        let primaryEmail := (evt.data.email_addresses.find? (·.primary)).map
          (·.email_address)
        if strTruthy primaryEmail then
          let leadData := buildLeadData evt.data (primaryEmail.getD "")
          match createLeadOutcome with
          | .ok res =>
            if res.success then ⟨200, some leadData⟩ else ⟨500, some leadData⟩
          | .error _ => ⟨500, some leadData⟩
        else ⟨400, none⟩
      else if evt.type = "user.updated" then ⟨200, none⟩
      else ⟨200, none⟩

end ClerkWebhook

/-! ## Concrete sample inputs (used to instantiate the theorems) -/

namespace Samples

/-- A stored `'public'`-tier row. -/
def publicRow : Database.DbRow :=
  { id := "u1", name := "House", address := "1 Main St", city := "Lafayette"
    state := "LA", zip_code := "70501", price := 100000, bedrooms := 3
    bathrooms := 2, square_footage := 1200, lot_size := 2
    year_built := 1990, property_type := "Single Family"
    description := "", status := "Active", images := [], tier := "public"
    salesforce_id := "SF1", created_at := "2024-01-01"
    updated_at := "2024-01-02", last_synced_at := "2024-01-03" }

/-- A sample property handed to `syncProperties`. -/
def syncProp : Database.Property :=
  { id := some "SF1", name := "House", address := "1 Main St"
    city := "Lafayette", state := "LA", zipCode := "70501", price := 100000
    bedrooms := 3, bathrooms := 2, squareFootage := 1200, lotSize := 2
    yearBuilt := 1990, propertyType := "Single Family", description := ""
    status := "Active", images := [], tier := "public", salesforceId := "SF1"
    createdAt := "2024-01-01", updatedAt := "2024-01-02"
    lastSyncedAt := "2024-01-03" }

/-- A CRM transaction of deal type `'Rental'` with no monthly rent, no
tags, registered access. -/
def rentalTransaction : Types.SalesforceTransaction :=
  { Id := "T1", Name := "Rental Home", Street_Address__c := "2 Oak St"
    City__c := "Lafayette", State__c := "LA", Zip_Code__c := "70501"
    Parish__c := "Lafayette", Bedrooms__c := 3, Bathrooms__c := 2
    Square_Feet__c := 1400, Property_Type__c := "Single Family"
    Deal_Type__c := "Rental", Market__c := "Lafayette"
    List_Price__c := 250000, Status__c := "Available"
    Access_Tier__c := "public", CreatedDate := "2024-01-01"
    LastModifiedDate := "2024-01-02", OwnerId := "O1" }

/-- A `'Fix & Flip'` transaction with all metrics present, notes, showing
instructions and tags, public access tier. -/
def flipTransaction : Types.SalesforceTransaction :=
  { Id := "T2", Name := "Flip Home", Street_Address__c := "3 Elm St"
    City__c := "Lafayette", State__c := "LA", Zip_Code__c := "70501"
    Parish__c := "Lafayette", Bedrooms__c := 4, Bathrooms__c := 3
    Square_Feet__c := 1800, Property_Type__c := "Single Family"
    Deal_Type__c := "Fix & Flip", Market__c := "Lafayette"
    List_Price__c := 180000, Status__c := "Available"
    Access_Tier__c := "public", ARV__c := some 260000
    Rehab_Estimate__c := some 40000, Spread__c := some 40000
    ROI__c := some 20, CreatedDate := "2024-01-01"
    LastModifiedDate := "2024-01-02", OwnerId := "O1"
    Tags__c := some "pool, garage", Notes__c := some "seller motivated"
    Showing_Instructions__c := some "call first" }

/-- A CRM sync record whose source tier field holds the arbitrary string
`'Premium'`. -/
def premiumRecord : SalesforceSync.SyncRecord :=
  { Id := "SF9", Tier__c := some "Premium", Price__c := .num 120000
    CreatedDate := "2024-01-01", LastModifiedDate := "2024-01-02" }

/-- A CRM sync record without a source tier and a mid-range price. -/
def midPriceRecord : SalesforceSync.SyncRecord :=
  { Id := "SF8", Tier__c := none, Price__c := .num 500000
    CreatedDate := "2024-01-01", LastModifiedDate := "2024-01-02" }

/-- An upsert body entry without a tier and a mid-range price. -/
def midPriceInput : UpsertRoute.UpsertInput :=
  { salesforce_id := some "SF8", price := .num 500000 }

/-- A verified Clerk user with a primary email. -/
def clerkUser : ClerkWebhook.ClerkUser :=
  { id := "user_1"
    email_addresses := [{ email_address := "a@b.com", primary := true }]
    first_name := some "Ada", last_name := some "Lovelace" }

/-- A Clerk user without any primary email. -/
def clerkUserNoEmail : ClerkWebhook.ClerkUser :=
  { id := "user_2"
    email_addresses := [{ email_address := "c@d.com", primary := false }] }

/-- A Clerk user whose primary entry carries the empty string: falsy
under the handler's `if (!primaryEmail)` check. -/
def clerkUserEmptyEmail : ClerkWebhook.ClerkUser :=
  { id := "user_3"
    email_addresses := [{ email_address := "", primary := true }] }

end Samples

/-! ## Supporting lemmas -/

namespace Database

theorem mem_insertByUpdatedDesc {x r : DbRow} {l : List DbRow} :
    x ∈ insertByUpdatedDesc r l ↔ x = r ∨ x ∈ l := by
  induction l with
  | nil => simp [insertByUpdatedDesc]
  | cons y ys ih =>
    simp only [insertByUpdatedDesc]
    split
    · simp
    · simp [ih]
      tauto

theorem mem_orderByUpdatedDesc {x : DbRow} {l : List DbRow} :
    x ∈ orderByUpdatedDesc l ↔ x ∈ l := by
  induction l with
  | nil => simp [orderByUpdatedDesc]
  | cons y ys ih => simp [orderByUpdatedDesc, mem_insertByUpdatedDesc, ih]

/-- Every property returned by `getProperties` comes from a stored row
that passed the tier clause of the query. -/
theorem getProperties_mem {store : List DbRow} {tier : Option String}
    {limit : Nat} {e : Option DbError} {p : Property}
    (h : p ∈ getProperties store tier limit e) :
    ∃ r ∈ store, p = rowToProperty r ∧ tierFilter tier r.tier = true := by
  match e with
  | some err => simp [getProperties] at h
  | none =>
    simp only [getProperties, List.mem_map] at h
    obtain ⟨r, hr, rfl⟩ := h
    have hr' := List.mem_of_mem_take hr
    rw [mem_orderByUpdatedDesc] at hr'
    have := List.mem_filter.mp hr'
    refine ⟨r, this.1, rfl, ?_⟩
    have hb := this.2
    simp only [Bool.and_eq_true] at hb
    exact hb.2

theorem rowToProperty_tier (r : DbRow) : (rowToProperty r).tier = r.tier := rfl

@[simp] theorem mkRow_salesforce_id (i : String) (w : DbWrite) :
    (mkRow i w).salesforce_id = w.salesforce_id := rfl

@[simp] theorem mkRow_id (i : String) (w : DbWrite) : (mkRow i w).id = i := rfl

@[simp] theorem applyUpdate_mkRow (i : String) (w w' : DbWrite) :
    applyUpdate (mkRow i w) w' = mkRow i w' := rfl

theorem updateRow_of_find?_eq {batch : List DbWrite} {row : DbRow}
    {w : DbWrite}
    (h : batch.find? (fun x => x.salesforce_id = row.salesforce_id) = some w) :
    updateRow batch row = applyUpdate row w := by
  unfold updateRow
  rw [h]

theorem updateRow_of_find?_none {batch : List DbWrite} {row : DbRow}
    (h : batch.find? (fun x => x.salesforce_id = row.salesforce_id) = none) :
    updateRow batch row = row := by
  unfold updateRow
  rw [h]

/-- `DO UPDATE` preserves the conflict key. -/
theorem updateRow_salesforce_id (batch : List DbWrite) (row : DbRow) :
    (updateRow batch row).salesforce_id = row.salesforce_id := by
  cases hfind : batch.find? (fun x => x.salesforce_id = row.salesforce_id) with
  | none => rw [updateRow_of_find?_none hfind]
  | some w =>
    rw [updateRow_of_find?_eq hfind]
    have hw := List.find?_some hfind
    simp only [decide_eq_true_eq] at hw
    exact hw

/-- Applying the same batch of updates twice to a row is the same as
applying it once (`find?` returns the same first match both times). -/
theorem updateRow_idem (batch : List DbWrite) (row : DbRow) :
    updateRow batch (updateRow batch row) = updateRow batch row := by
  cases hfind : batch.find? (fun x => x.salesforce_id = row.salesforce_id) with
  | none =>
    rw [updateRow_of_find?_none hfind, updateRow_of_find?_none hfind]
  | some w =>
    have hw := List.find?_some hfind
    simp only [decide_eq_true_eq] at hw
    rw [updateRow_of_find?_eq hfind]
    have hfind2 : batch.find?
        (fun x => x.salesforce_id = (applyUpdate row w).salesforce_id) =
        some w := by
      show batch.find? (fun x => x.salesforce_id = w.salesforce_id) = some w
      simp only [hw]
      exact hfind
    rw [updateRow_of_find?_eq hfind2]
    rfl

/-- With no duplicate keys in the batch, `find?` on a member's key
returns exactly that member. -/
theorem find?_key_of_nodup {batch : List DbWrite} {w : DbWrite}
    (hnd : (batch.map (·.salesforce_id)).Nodup) (hw : w ∈ batch) :
    batch.find? (fun x => x.salesforce_id = w.salesforce_id) = some w := by
  induction batch with
  | nil => cases hw
  | cons b bs ih =>
    rw [List.map_cons] at hnd
    have hnd2 := List.nodup_cons.mp hnd
    rcases List.mem_cons.mp hw with rfl | hw'
    · exact List.find?_cons_of_pos _ (by simp)
    · have hbw : ¬ b.salesforce_id = w.salesforce_id := by
        intro he
        exact hnd2.1 (he ▸ List.mem_map_of_mem _ hw')
      rw [List.find?_cons_of_neg _ (by simp [hbw])]
      exact ih hnd2.2 hw'

/-- Updating a freshly inserted row by its own batch is a no-op. -/
theorem updateRow_mkRow_mem {batch : List DbWrite} {w : DbWrite}
    (hnd : (batch.map (·.salesforce_id)).Nodup) (hw : w ∈ batch)
    (i : String) : updateRow batch (mkRow i w) = mkRow i w := by
  have hfind : batch.find?
      (fun x => x.salesforce_id = (mkRow i w).salesforce_id) = some w := by
    show batch.find? (fun x => x.salesforce_id = w.salesforce_id) = some w
    exact find?_key_of_nodup hnd hw
  rw [updateRow_of_find?_eq hfind]
  rfl

end Database

/-- The threshold derivation only ever produces the three enum tiers. -/
theorem autoTierFromPrice_mem (q : ℚ) :
    autoTierFromPrice q = "public" ∨ autoTierFromPrice q = "registered" ∨
      autoTierFromPrice q = "vip" := by
  unfold autoTierFromPrice
  split
  · exact Or.inr (Or.inr rfl)
  · split
    · exact Or.inr (Or.inl rfl)
    · exact Or.inl rfl

/-- A zero price lands below both thresholds. -/
theorem autoTierFromPrice_zero : autoTierFromPrice 0 = "public" := by
  unfold autoTierFromPrice
  rw [if_neg (by norm_num), if_neg (by norm_num)]

/-- With a falsy `prop.tier`, the upsert endpoint's tier equals the
threshold derivation on `parseFloat(prop.price) || 0` (a falsy price
skips the threshold block, but yields `'public'` either way). -/
theorem routeTier_falsy (prop : UpsertRoute.UpsertInput)
    (htier : strTruthy prop.tier = false) :
    UpsertRoute.routeTier prop = autoTierFromPrice prop.price.parseFloatD := by
  unfold UpsertRoute.routeTier
  simp only [htier, Bool.not_false, Bool.true_and, jsOrStr, Bool.false_eq_true,
    if_false]
  cases hp : prop.price with
  | missing =>
    simp [PriceField.truthy, PriceField.parseFloatD, autoTierFromPrice_zero]
  | strEmpty =>
    simp [PriceField.truthy, PriceField.parseFloatD, autoTierFromPrice_zero]
  | strVal parsed => simp [PriceField.truthy]
  | num q =>
    by_cases hq : q = 0
    · subst hq
      simp [PriceField.truthy, PriceField.parseFloatD, autoTierFromPrice_zero]
    · simp [PriceField.truthy, hq]

end CedarSells

namespace CedarSells

/-! ## Claims -/

/-- C1. Tier filtering is correct: for every stored property list (and
any query outcome), `PropertyDatabase.getProperties` returns only
properties whose tier is visible to the viewer — a `'public'` or absent
viewer tier yields only `'public'` properties, a `'registered'` viewer
yields tiers in `{'public','registered'}`, and a `'vip'` viewer may
receive all three tiers (the tier clause of the query admits each of
them). -/
theorem getProperties_tier_filtering (store : List Database.DbRow)
    (limit : Nat) (e : Option Database.DbError) (p : Database.Property) :
    (p ∈ Database.getProperties store none limit e → p.tier = "public") ∧
    (p ∈ Database.getProperties store (some "public") limit e →
      p.tier = "public") ∧
    (p ∈ Database.getProperties store (some "registered") limit e →
      p.tier = "public" ∨ p.tier = "registered") ∧
    (p ∈ Database.getProperties store (some "vip") limit e →
      p.tier = "public" ∨ p.tier = "registered" ∨ p.tier = "vip") ∧
    (∀ rowTier : String,
      rowTier = "public" ∨ rowTier = "registered" ∨ rowTier = "vip" →
      Database.tierFilter (some "vip") rowTier = true) := by
  refine ⟨?_, ?_, ?_, ?_, ?_⟩
  · intro h
    obtain ⟨r, _, rfl, hf⟩ := Database.getProperties_mem h
    rw [Database.rowToProperty_tier]
    simpa [Database.tierFilter, strTruthy] using hf
  · intro h
    obtain ⟨r, _, rfl, hf⟩ := Database.getProperties_mem h
    rw [Database.rowToProperty_tier]
    simpa [Database.tierFilter, strTruthy] using hf
  · intro h
    obtain ⟨r, _, rfl, hf⟩ := Database.getProperties_mem h
    rw [Database.rowToProperty_tier]
    simpa [Database.tierFilter, strTruthy] using hf
  · intro h
    obtain ⟨r, _, rfl, hf⟩ := Database.getProperties_mem h
    rw [Database.rowToProperty_tier]
    simpa [Database.tierFilter, strTruthy, or_assoc] using hf
  · rintro rowTier (rfl | rfl | rfl) <;> simp [Database.tierFilter, strTruthy]

/-- Witness for C1 at a concrete one-row store. -/
theorem getProperties_tier_filtering_witness :
    Database.rowToProperty Samples.publicRow ∈
      Database.getProperties [Samples.publicRow] none 50 none ∧
    (Database.rowToProperty Samples.publicRow).tier = "public" :=
  ⟨by decide,
    (getProperties_tier_filtering [Samples.publicRow] 50 none
      (Database.rowToProperty Samples.publicRow)).1 (by decide)⟩

/-- C2. Tier-based field redaction in the property detail endpoint: every
property the route serves to a `'public'` viewer equals the transformed
property except that the street is replaced by the literal
`'Address available after registration'`, showing instructions and notes
are removed, the flip spread (when flip metrics exist) is zeroed, and the
monthly rent (when rental metrics exist) is removed — all other fields
unchanged; a signed-in (`'registered'`) viewer gets the transformed
property untouched, and the filter is the identity at `'vip'`. -/
theorem detailRoute_public_redaction (propertyId : String)
    (t : Types.SalesforceTransaction) (images : List Types.PropertyImage)
    (uid : String) (p q r : Types.Property) :
    ((DetailRoute.GET none propertyId (.ok t) images).1.property = some p →
      p.address.street = "Address available after registration" ∧
      p.showingInstructions = none ∧
      p.notes = none ∧
      p.flipMetrics = (transformSalesforceTransaction t images).flipMetrics.map
        (fun m => { m with spread := 0 }) ∧
      p.rentalMetrics =
        (transformSalesforceTransaction t images).rentalMetrics.map
          (fun m => { m with monthlyRent := none }) ∧
      p.id = (transformSalesforceTransaction t images).id ∧
      p.title = (transformSalesforceTransaction t images).title ∧
      p.description = (transformSalesforceTransaction t images).description ∧
      p.address.city = (transformSalesforceTransaction t images).address.city ∧
      p.address.state = (transformSalesforceTransaction t images).address.state ∧
      p.address.zipCode =
        (transformSalesforceTransaction t images).address.zipCode ∧
      p.address.parish =
        (transformSalesforceTransaction t images).address.parish ∧
      p.bedrooms = (transformSalesforceTransaction t images).bedrooms ∧
      p.bathrooms = (transformSalesforceTransaction t images).bathrooms ∧
      p.squareFeet = (transformSalesforceTransaction t images).squareFeet ∧
      p.lotSize = (transformSalesforceTransaction t images).lotSize ∧
      p.yearBuilt = (transformSalesforceTransaction t images).yearBuilt ∧
      p.propertyType = (transformSalesforceTransaction t images).propertyType ∧
      p.dealType = (transformSalesforceTransaction t images).dealType ∧
      p.market = (transformSalesforceTransaction t images).market ∧
      p.listPrice = (transformSalesforceTransaction t images).listPrice ∧
      p.purchasePrice =
        (transformSalesforceTransaction t images).purchasePrice ∧
      p.status = (transformSalesforceTransaction t images).status ∧
      p.accessTier = (transformSalesforceTransaction t images).accessTier ∧
      p.isOffMarket = (transformSalesforceTransaction t images).isOffMarket ∧
      p.images = (transformSalesforceTransaction t images).images ∧
      p.thumbnailUrl = (transformSalesforceTransaction t images).thumbnailUrl ∧
      p.createdDate = (transformSalesforceTransaction t images).createdDate ∧
      p.updatedDate = (transformSalesforceTransaction t images).updatedDate ∧
      p.ownerId = (transformSalesforceTransaction t images).ownerId ∧
      p.tags = (transformSalesforceTransaction t images).tags) ∧
    ((DetailRoute.GET (some uid) propertyId (.ok t) images).1.property = some q →
      q = transformSalesforceTransaction t images) ∧
    (DetailRoute.applyTierFilter "vip" r = r) := by
  refine ⟨?_, ?_, ?_⟩
  · intro h
    simp only [DetailRoute.GET, DetailRoute.accessTierOf, Option.isSome_none,
      Bool.false_eq_true, if_false] at h
    split at h
    · simp at h
    · split at h
      · simp at h
      · simp only [Prod.fst] at h
        have hp : p = DetailRoute.applyTierFilter "public"
            (transformSalesforceTransaction t images) := by
          simpa using h.symm
        subst hp
        simp [DetailRoute.applyTierFilter]
  · intro h
    simp only [DetailRoute.GET, DetailRoute.accessTierOf, Option.isSome_some,
      if_true] at h
    split at h
    · simp at h
    · split at h
      · simp at h
      · simp only [Prod.fst] at h
        have hq : q = DetailRoute.applyTierFilter "registered"
            (transformSalesforceTransaction t images) := by
          simpa using h.symm
        subst hq
        simp [DetailRoute.applyTierFilter]
  · simp [DetailRoute.applyTierFilter]

/-- Witness for C2: the concrete flip transaction served to an anonymous
viewer is redacted, with the street literal in place. -/
theorem detailRoute_public_redaction_witness :
    (DetailRoute.GET none "T2" (.ok Samples.flipTransaction) []).1.property =
      some (DetailRoute.applyTierFilter "public"
        (transformSalesforceTransaction Samples.flipTransaction [])) ∧
    (DetailRoute.applyTierFilter "public"
        (transformSalesforceTransaction Samples.flipTransaction [])).address.street
      = "Address available after registration" :=
  ⟨by decide,
    ((detailRoute_public_redaction "T2" Samples.flipTransaction [] "u"
      (DetailRoute.applyTierFilter "public"
        (transformSalesforceTransaction Samples.flipTransaction []))
      (transformSalesforceTransaction Samples.flipTransaction [])
      (transformSalesforceTransaction Samples.flipTransaction [])).1
        (by decide)).1⟩

/-- C3. Tier assignment during sync: a record that supplies a (truthy)
tier field gets it lowercased; otherwise the tier comes from the price
thresholds on `parseFloat(Price__c) || 0` — at least 1000000 is `'vip'`,
at least 300000 but below 1000000 is `'registered'`, below 300000
(including a missing or unparsable price, which collapses to 0) is
`'public'`. The upsert endpoint applies the same threshold derivation
whenever no tier is provided. -/
theorem tier_assignment_thresholds (now : String)
    (r : SalesforceSync.SyncRecord) (prop : UpsertRoute.UpsertInput)
    (q : ℚ) :
    (strTruthy r.Tier__c = true →
      (SalesforceSync.transformRecord now r).tier =
        jsToLowerCase (r.Tier__c.getD "")) ∧
    (strTruthy r.Tier__c = false →
      (SalesforceSync.transformRecord now r).tier =
        autoTierFromPrice r.Price__c.parseFloatD) ∧
    (1000000 ≤ q → autoTierFromPrice q = "vip") ∧
    (300000 ≤ q → q < 1000000 → autoTierFromPrice q = "registered") ∧
    (q < 300000 → autoTierFromPrice q = "public") ∧
    PriceField.parseFloatD .missing = 0 ∧
    PriceField.parseFloatD (.strVal none) = 0 ∧
    (strTruthy prop.tier = false →
      (UpsertRoute.transformProp now prop).tier =
        autoTierFromPrice prop.price.parseFloatD) := by
  refine ⟨?_, ?_, ?_, ?_, ?_, rfl, rfl, ?_⟩
  · intro h
    simp [SalesforceSync.transformRecord, SalesforceSync.assignedTier, h]
  · intro h
    simp [SalesforceSync.transformRecord, SalesforceSync.assignedTier, h]
  · intro h
    unfold autoTierFromPrice
    rw [if_pos h]
  · intro h1 h2
    unfold autoTierFromPrice
    rw [if_neg (not_le.mpr h2), if_pos h1]
  · intro h
    unfold autoTierFromPrice
    rw [if_neg (not_le.mpr (by linarith)), if_neg (not_le.mpr h)]
  · intro h
    show UpsertRoute.routeTier prop = _
    exact routeTier_falsy prop h

/-- Witness for C3: a supplied tier is lowercased; a tierless record with
price 500000 lands in `'registered'` in both the sync transform and the
upsert endpoint. -/
theorem tier_assignment_thresholds_witness :
    (SalesforceSync.transformRecord "2024-01-03" Samples.premiumRecord).tier =
      jsToLowerCase ((SalesforceSync.SyncRecord.Tier__c
        Samples.premiumRecord).getD "") ∧
    (SalesforceSync.transformRecord "2024-01-03" Samples.midPriceRecord).tier =
      autoTierFromPrice ((SalesforceSync.SyncRecord.Price__c
        Samples.midPriceRecord).parseFloatD) ∧
    autoTierFromPrice 500000 = "registered" ∧
    (UpsertRoute.transformProp "2024-01-03" Samples.midPriceInput).tier =
      autoTierFromPrice ((UpsertRoute.UpsertInput.price
        Samples.midPriceInput).parseFloatD) :=
  ⟨(tier_assignment_thresholds "2024-01-03" Samples.premiumRecord
      Samples.midPriceInput 500000).1 (by decide),
   (tier_assignment_thresholds "2024-01-03" Samples.midPriceRecord
      Samples.midPriceInput 500000).2.1 (by decide),
   (tier_assignment_thresholds "2024-01-03" Samples.midPriceRecord
      Samples.midPriceInput 500000).2.2.2.1 (by norm_num) (by norm_num),
   (tier_assignment_thresholds "2024-01-03" Samples.midPriceRecord
      Samples.midPriceInput 500000).2.2.2.2.2.2.2 (by decide)⟩

/-- C5 counterexample: a CRM record whose source tier field holds the
arbitrary string `'Premium'` is transformed to tier `'premium'`, which is
not a member of the enum. -/
theorem tier_enum_membership_cex :
    (SalesforceSync.transformRecord "2024-01-03" Samples.premiumRecord).tier =
      "premium" ∧
    ¬((SalesforceSync.transformRecord "2024-01-03"
          Samples.premiumRecord).tier = "public" ∨
      (SalesforceSync.transformRecord "2024-01-03"
          Samples.premiumRecord).tier = "registered" ∨
      (SalesforceSync.transformRecord "2024-01-03"
          Samples.premiumRecord).tier = "vip") := by decide

/-- C5 (amended). Enum membership holds whenever the source supplies no
(truthy) tier, in both the sync transform and the upsert endpoint; a
supplied tier is passed through unvalidated (lowercased by the sync,
verbatim by the upsert endpoint), so membership is guaranteed only when
the supplied value is itself an enum value (up to case, resp. exactly) —
for other values the schema's CHECK constraint is the only guard. -/
theorem tier_enum_membership_amended (now : String)
    (r : SalesforceSync.SyncRecord) (prop : UpsertRoute.UpsertInput) :
    (strTruthy r.Tier__c = false →
      ((SalesforceSync.transformRecord now r).tier = "public" ∨
       (SalesforceSync.transformRecord now r).tier = "registered" ∨
       (SalesforceSync.transformRecord now r).tier = "vip")) ∧
    (strTruthy r.Tier__c = true →
      (SalesforceSync.transformRecord now r).tier =
        jsToLowerCase (r.Tier__c.getD "")) ∧
    (strTruthy prop.tier = false →
      ((UpsertRoute.transformProp now prop).tier = "public" ∨
       (UpsertRoute.transformProp now prop).tier = "registered" ∨
       (UpsertRoute.transformProp now prop).tier = "vip")) ∧
    (strTruthy prop.tier = true →
      (UpsertRoute.transformProp now prop).tier = prop.tier.getD "") := by
  refine ⟨?_, ?_, ?_, ?_⟩
  · intro h
    have ht : (SalesforceSync.transformRecord now r).tier =
        autoTierFromPrice r.Price__c.parseFloatD := by
      simp [SalesforceSync.transformRecord, SalesforceSync.assignedTier, h]
    rw [ht]
    exact autoTierFromPrice_mem _
  · intro h
    simp [SalesforceSync.transformRecord, SalesforceSync.assignedTier, h]
  · intro h
    rw [show (UpsertRoute.transformProp now prop).tier =
      UpsertRoute.routeTier prop from rfl, routeTier_falsy prop h]
    exact autoTierFromPrice_mem _
  · intro h
    simp [UpsertRoute.transformProp, UpsertRoute.routeTier, h, jsOrStr]

/-- Witness for C5 (amended) at concrete records. -/
theorem tier_enum_membership_amended_witness :
    ((SalesforceSync.transformRecord "2024-01-03"
        Samples.midPriceRecord).tier = "public" ∨
     (SalesforceSync.transformRecord "2024-01-03"
        Samples.midPriceRecord).tier = "registered" ∨
     (SalesforceSync.transformRecord "2024-01-03"
        Samples.midPriceRecord).tier = "vip") ∧
    ((UpsertRoute.transformProp "2024-01-03" Samples.midPriceInput).tier =
        "public" ∨
     (UpsertRoute.transformProp "2024-01-03" Samples.midPriceInput).tier =
        "registered" ∨
     (UpsertRoute.transformProp "2024-01-03" Samples.midPriceInput).tier =
        "vip") :=
  ⟨(tier_enum_membership_amended "2024-01-03" Samples.midPriceRecord
      Samples.midPriceInput).1 (by decide),
   (tier_enum_membership_amended "2024-01-03" Samples.midPriceRecord
      Samples.midPriceInput).2.2.1 (by decide)⟩

/-- C4. Upsert is idempotent and keyed by the external CRM identifier:
whenever `PropertyDatabase.syncProperties` succeeds, replaying the same
property list leaves the store exactly as it was after the first sync,
and the sync preserves uniqueness of `salesforce_id` across the store
(the schema's UNIQUE constraint guarantees it holds initially). -/
theorem syncProperties_idempotent_keyed (props : List Database.Property)
    (st st' : Database.Store)
    (h : Database.syncProperties props st = .ok st') :
    Database.syncProperties props st' = .ok st' ∧
    ((st.rows.map (·.salesforce_id)).Nodup →
      (st'.rows.map (·.salesforce_id)).Nodup) := by
  unfold Database.syncProperties Database.upsertBatch at h
  set batch := props.map Database.toDbWrite with hbatch
  by_cases hnd : (batch.map (·.salesforce_id)).Nodup
  case neg =>
    rw [if_neg hnd] at h
    exact Except.noConfusion h
  rw [if_pos hnd] at h
  injection h with h2
  set U := st.rows.map (Database.updateRow batch) with hU
  set F := Database.freshWrites st batch with hF
  set N := F.enum.map
    (fun p => Database.mkRow (toString (st.nextId + p.1)) p.2) with hN
  subst h2
  have hKeysU : U.map (·.salesforce_id) = st.rows.map (·.salesforce_id) := by
    rw [hU, List.map_map]
    exact List.map_congr_left
      (fun r _ => Database.updateRow_salesforce_id batch r)
  have hKeysN : N.map (·.salesforce_id) = F.map (·.salesforce_id) := by
    rw [hN, List.map_map]
    calc F.enum.map ((fun r => r.salesforce_id) ∘
          (fun p => Database.mkRow (toString (st.nextId + p.1)) p.2))
        = F.enum.map ((fun w => w.salesforce_id) ∘ Prod.snd) := rfl
      _ = (F.enum.map Prod.snd).map (·.salesforce_id) := by
          rw [List.map_map]
      _ = F.map (·.salesforce_id) := by rw [List.enum_map_snd]
  have hCover : ∀ w ∈ batch,
      ((U ++ N).any (fun row => row.salesforce_id = w.salesforce_id)) = true := by
    intro w hw
    by_cases hmem :
      st.rows.any (fun row => row.salesforce_id = w.salesforce_id) = true
    · obtain ⟨r, hr, hpr⟩ := List.any_eq_true.mp hmem
      exact List.any_eq_true.mpr
        ⟨Database.updateRow batch r,
         List.mem_append_left _ (hU ▸ List.mem_map_of_mem _ hr),
         by simpa [Database.updateRow_salesforce_id] using hpr⟩
    · have hwF : w ∈ F := by
        rw [hF]
        unfold Database.freshWrites
        refine List.mem_filter.mpr ⟨hw, ?_⟩
        simp only [Bool.not_eq_true] at hmem
        simp [hmem]
      have hsid : w.salesforce_id ∈ N.map (·.salesforce_id) := by
        rw [hKeysN]
        exact List.mem_map_of_mem _ hwF
      obtain ⟨row, hrow, hrs⟩ := List.mem_map.mp hsid
      exact List.any_eq_true.mpr
        ⟨row, List.mem_append_right _ hrow, by simp [hrs]⟩
  have hFresh2 : Database.freshWrites ⟨U ++ N, st.nextId + F.length⟩ batch = [] := by
    unfold Database.freshWrites
    exact List.filter_eq_nil_iff.mpr (fun w hw => by simp [hCover w hw])
  have hStable : ∀ u ∈ U ++ N, Database.updateRow batch u = u := by
    intro u hu
    rcases List.mem_append.mp hu with hu | hu
    · obtain ⟨r, _, rfl⟩ := List.mem_map.mp (hU ▸ hu)
      exact Database.updateRow_idem batch r
    · obtain ⟨p, hp, rfl⟩ := List.mem_map.mp (hN ▸ hu)
      have hp2 : p.2 ∈ F := by
        have := List.mem_map_of_mem Prod.snd hp
        rwa [List.enum_map_snd] at this
      have hpb : p.2 ∈ batch := by
        rw [hF] at hp2
        exact List.mem_of_mem_filter hp2
      exact Database.updateRow_mkRow_mem hnd hpb _
  constructor
  · unfold Database.syncProperties Database.upsertBatch
    rw [← hbatch, if_pos hnd, hFresh2]
    have hrows : (U ++ N).map (Database.updateRow batch) = U ++ N := by
      calc (U ++ N).map (Database.updateRow batch)
          = (U ++ N).map id := List.map_congr_left hStable
        _ = U ++ N := List.map_id _
    simp [hrows]
  · intro hst
    show ((U ++ N).map (·.salesforce_id)).Nodup
    rw [List.map_append, hKeysU, hKeysN]
    refine List.nodup_append.mpr ⟨hst, ?_, ?_⟩
    · exact hnd.sublist ((List.filter_sublist batch).map _)
    · intro a ha haf
      obtain ⟨w, hwF, rfl⟩ := List.mem_map.mp haf
      have hall : (!(st.rows.any
          (fun row => row.salesforce_id = w.salesforce_id))) = true := by
        rw [hF] at hwF
        exact (List.mem_filter.mp hwF).2
      obtain ⟨r, hr, hra⟩ := List.mem_map.mp ha
      rw [Bool.not_eq_true'] at hall
      have : st.rows.any
          (fun row => row.salesforce_id = w.salesforce_id) = true :=
        List.any_eq_true.mpr ⟨r, hr, by simp [hra]⟩
      rw [hall] at this
      exact Bool.noConfusion this

/-- Witness for C4: syncing one property into an empty store, then
replaying it, leaves the singleton store unchanged with a unique key. -/
theorem syncProperties_idempotent_keyed_witness :
    Database.syncProperties [Samples.syncProp] ⟨[], 0⟩ =
      .ok ⟨[Database.mkRow "0" (Database.toDbWrite Samples.syncProp)], 1⟩ ∧
    Database.syncProperties [Samples.syncProp]
        ⟨[Database.mkRow "0" (Database.toDbWrite Samples.syncProp)], 1⟩ =
      .ok ⟨[Database.mkRow "0" (Database.toDbWrite Samples.syncProp)], 1⟩ ∧
    (((⟨[Database.mkRow "0" (Database.toDbWrite Samples.syncProp)], 1⟩ :
        Database.Store).rows.map (·.salesforce_id)).Nodup) :=
  ⟨by rfl,
   (syncProperties_idempotent_keyed [Samples.syncProp] ⟨[], 0⟩
      ⟨[Database.mkRow "0" (Database.toDbWrite Samples.syncProp)], 1⟩
      (by rfl)).1,
   (syncProperties_idempotent_keyed [Samples.syncProp] ⟨[], 0⟩
      ⟨[Database.mkRow "0" (Database.toDbWrite Samples.syncProp)], 1⟩
      (by rfl)).2 (by decide)⟩

/-- C6. Best-effort error handling: `PropertyDatabase.getProperties`
returns `[]` on a database error; the Salesforce-backed listing route
answers 200/success with an empty property list and `totalCount` 0 both
without Salesforce tokens and when the query fails; and the route issues
the Salesforce query at most once (no retry). -/
theorem read_failure_fallbacks (store : List Database.DbRow)
    (tier : Option String) (limit : Nat) (e : Database.DbError)
    (dealTypes markets : List String) (lim off : Nat)
    (userId tok iurl : Option String) (qerr : String)
    (outcome : Except String PropertiesRoute.SfListData) (today : String) :
    Database.getProperties store tier limit (some e) = [] ∧
    (strTruthy tok = false ∨ strTruthy iurl = false →
      PropertiesRoute.GET dealTypes markets lim off userId tok iurl outcome
        today = (⟨true, 200, [], 0, false⟩, [])) ∧
    (PropertiesRoute.GET dealTypes markets lim off userId tok iurl
        (.error qerr) today).1 = ⟨true, 200, [], 0, false⟩ ∧
    (PropertiesRoute.GET dealTypes markets lim off userId tok iurl outcome
        today).2.count .sfQuery ≤ 1 := by
  refine ⟨rfl, ?_, ?_, ?_⟩
  · intro h
    unfold PropertiesRoute.GET
    rcases h with h | h <;> simp [h]
  · unfold PropertiesRoute.GET
    by_cases h : strTruthy tok = true ∧ strTruthy iurl = true
    · simp [h.1, h.2]
    · rcases not_and_or.mp h with h | h <;>
        simp [Bool.not_eq_true] at h <;> simp [h]
  · unfold PropertiesRoute.GET
    by_cases h : strTruthy tok = true ∧ strTruthy iurl = true
    · cases outcome <;> simp [h.1, h.2, List.count]
    · rcases not_and_or.mp h with h | h <;>
        simp [Bool.not_eq_true] at h <;> simp [h, List.count]

/-- Witness for C6: the tokenless request yields the empty success
response without any external call. -/
theorem read_failure_fallbacks_witness :
    PropertiesRoute.GET [] [] 20 0 none none none
        (.ok ⟨[], true, none, 0⟩) "2024-01-03" =
      (⟨true, 200, [], 0, false⟩, []) ∧
    Database.getProperties [Samples.publicRow] none 50
        (some ⟨"connection refused"⟩) = [] :=
  ⟨(read_failure_fallbacks [Samples.publicRow] none 50 ⟨"connection refused"⟩
      [] [] 20 0 none none none "x" (.ok ⟨[], true, none, 0⟩)
      "2024-01-03").2.1 (Or.inl (by decide)),
   (read_failure_fallbacks [Samples.publicRow] none 50 ⟨"connection refused"⟩
      [] [] 20 0 none none none "x" (.ok ⟨[], true, none, 0⟩)
      "2024-01-03").1⟩

/-- C7 counterexample: for a `'Rental'` transaction with no
`Monthly_Rent__c`, the transform leaves `monthlyRent` absent rather than
defaulting it to 0 (every other metric value does default to 0). -/
theorem transform_field_mapping_cex :
    (transformSalesforceTransaction Samples.rentalTransaction
        []).rentalMetrics =
      some { grossYield := 0, capRate := 0, monthlyRent := none } ∧
    ((transformSalesforceTransaction Samples.rentalTransaction
        []).rentalMetrics.map (fun m => m.monthlyRent)) ≠ some (some 0) := by
  decide

/-- C7 (amended). Field-mapping correctness of the CRM-to-Property
transform: every CRM field is copied to its corresponding field;
`flipMetrics` exists iff the deal type is `'Fix & Flip'` and
`rentalMetrics` iff it is `'Rental'`, with missing metric values
defaulting to 0 except `monthlyRent`, which is copied as-is (left absent
when missing); the thumbnail is the first image's url, or the placeholder
for an empty list; tags are the comma-split, trimmed `Tags__c` when that
field is truthy and absent otherwise. -/
theorem transform_field_mapping_amended (t : Types.SalesforceTransaction)
    (images : List Types.PropertyImage) (p : Types.Property)
    (hp : p = transformSalesforceTransaction t images) :
    p.id = t.Id ∧ p.title = t.Name ∧
    p.description = jsOrStr t.Description__c "" ∧
    p.address.street = t.Street_Address__c ∧
    p.address.city = t.City__c ∧
    p.address.state = t.State__c ∧
    p.address.zipCode = t.Zip_Code__c ∧
    p.address.parish = t.Parish__c ∧
    p.bedrooms = t.Bedrooms__c ∧
    p.bathrooms = t.Bathrooms__c ∧
    p.squareFeet = t.Square_Feet__c ∧
    p.lotSize = t.Lot_Size__c ∧
    p.yearBuilt = t.Year_Built__c ∧
    p.propertyType = t.Property_Type__c ∧
    p.dealType = t.Deal_Type__c ∧
    p.market = t.Market__c ∧
    p.listPrice = t.List_Price__c ∧
    p.purchasePrice = t.Purchase_Price__c ∧
    p.status = t.Status__c ∧
    p.accessTier = t.Access_Tier__c ∧
    p.isOffMarket = t.Is_Off_Market__c.getD false ∧
    p.images = images ∧
    p.createdDate = t.CreatedDate ∧
    p.updatedDate = t.LastModifiedDate ∧
    p.ownerId = t.OwnerId ∧
    p.notes = t.Notes__c ∧
    p.showingInstructions = t.Showing_Instructions__c ∧
    (p.flipMetrics.isSome ↔ t.Deal_Type__c = "Fix & Flip") ∧
    (t.Deal_Type__c = "Fix & Flip" →
      p.flipMetrics = some { arv := t.ARV__c.getD 0
                             rehabEstimate := t.Rehab_Estimate__c.getD 0
                             spread := t.Spread__c.getD 0
                             roi := t.ROI__c.getD 0 }) ∧
    (p.rentalMetrics.isSome ↔ t.Deal_Type__c = "Rental") ∧
    (t.Deal_Type__c = "Rental" →
      p.rentalMetrics = some { grossYield := t.Gross_Yield__c.getD 0
                               capRate := t.Cap_Rate__c.getD 0
                               monthlyRent := t.Monthly_Rent__c }) ∧
    (images = [] → p.thumbnailUrl = "/placeholder-house.jpg") ∧
    (∀ img rest, images = img :: rest → p.thumbnailUrl = img.url) ∧
    (strTruthy t.Tags__c = true →
      p.tags = some ((jsSplitComma (t.Tags__c.getD "")).map jsTrim)) ∧
    (strTruthy t.Tags__c = false → p.tags = none) := by
  subst hp
  refine ⟨rfl, rfl, rfl, rfl, rfl, rfl, rfl, rfl, rfl, rfl, rfl, rfl, rfl,
    rfl, rfl, rfl, rfl, rfl, rfl, rfl, rfl, rfl, rfl, rfl, rfl, rfl, rfl,
    ?_, ?_, ?_, ?_, ?_, ?_, ?_, ?_⟩
  · simp only [transformSalesforceTransaction]
    split <;> simp_all
  · intro h
    simp [transformSalesforceTransaction, h]
  · simp only [transformSalesforceTransaction]
    split <;> simp_all
  · intro h
    have hne : ¬ t.Deal_Type__c = "Fix & Flip" := by
      rw [h]; decide
    simp [transformSalesforceTransaction, h]
  · intro h
    subst h
    rfl
  · intro img rest h
    subst h
    rfl
  · intro h
    simp [transformSalesforceTransaction, h]
  · intro h
    simp [transformSalesforceTransaction, h]

/-- Witness for C7 (amended) at the concrete flip transaction. -/
theorem transform_field_mapping_amended_witness :
    (transformSalesforceTransaction Samples.flipTransaction []).flipMetrics =
      some { arv := 260000, rehabEstimate := 40000, spread := 40000
             roi := 20 } ∧
    (transformSalesforceTransaction Samples.flipTransaction []).tags =
      some ["pool", "garage"] ∧
    (transformSalesforceTransaction Samples.flipTransaction []).thumbnailUrl =
      "/placeholder-house.jpg" := by
  obtain ⟨e1, e2, e3, e4, e5, e6, e7, e8, e9, e10, e11, e12, e13, e14, e15,
      e16, e17, e18, e19, e20, e21, e22, e23, e24, e25, e26, e27, hFlipIff,
      hFlipEq, hRentIff, hRentEq, hThumbNil, hThumbCons, hTagsT, hTagsF⟩ :=
    transform_field_mapping_amended Samples.flipTransaction []
      (transformSalesforceTransaction Samples.flipTransaction []) rfl
  refine ⟨?_, ?_, ?_⟩
  · rw [hFlipEq (by decide)]
    decide
  · rw [hTagsT (by decide)]
    decide
  · exact hThumbNil rfl

/-- C8. The webhook receiver creates a CRM lead exactly on user signup:
under a verified signature, a `createLead` call is issued iff the event
is `user.created` and the user has a primary email address — "has" being
the code's JS-truthy `if (!primaryEmail)` check on the extracted address,
so a primary entry with an empty address counts as absent; a verified
`user.created` event without such a primary email gets 400 and no lead;
any other verified event type is acknowledged with 200 and no lead; a
failed signature verification gets 400 and no lead. -/
theorem webhook_lead_iff_signup (svixId svixTimestamp svixSignature : Option String)
    (evt : ClerkWebhook.ClerkWebhookEvent)
    (leadOut : Except String ClerkWebhook.LeadResult)
    (h1 : strTruthy svixId = true) (h2 : strTruthy svixTimestamp = true)
    (h3 : strTruthy svixSignature = true) :
    ((ClerkWebhook.POST true svixId svixTimestamp svixSignature (some evt)
        leadOut).leadPayload.isSome = true ↔
      (evt.type = "user.created" ∧
        strTruthy ((evt.data.email_addresses.find? (·.primary)).map
          (·.email_address)) = true)) ∧
    (evt.type = "user.created" →
      strTruthy ((evt.data.email_addresses.find? (·.primary)).map
        (·.email_address)) = false →
      ClerkWebhook.POST true svixId svixTimestamp svixSignature (some evt)
        leadOut = ⟨400, none⟩) ∧
    (evt.type ≠ "user.created" →
      ClerkWebhook.POST true svixId svixTimestamp svixSignature (some evt)
        leadOut = ⟨200, none⟩) ∧
    ClerkWebhook.POST true svixId svixTimestamp svixSignature none leadOut =
      ⟨400, none⟩ := by
  refine ⟨?_, ?_, ?_, ?_⟩
  · by_cases ht : evt.type = "user.created"
    · by_cases he : strTruthy ((evt.data.email_addresses.find? (·.primary)).map
          (·.email_address)) = true
      · cases leadOut with
        | error msg => simp [ClerkWebhook.POST, h1, h2, h3, ht, he]
        | ok res =>
          cases hres : res.success <;>
            simp [ClerkWebhook.POST, h1, h2, h3, ht, he, hres]
      · rw [Bool.not_eq_true] at he
        simp [ClerkWebhook.POST, h1, h2, h3, ht, he]
    · simp only [ClerkWebhook.POST, h1, h2, h3, ht]
      norm_num
  · intro ht he
    simp [ClerkWebhook.POST, h1, h2, h3, ht, he]
  · intro ht
    simp only [ClerkWebhook.POST, h1, h2, h3, ht]
    norm_num
  · simp [ClerkWebhook.POST, h1, h2, h3]

/-- Witness for C8: a verified signup with a truthy primary email issues
the lead call; one without a primary entry, and one whose primary entry
holds the empty string, are both rejected with 400 and no lead. -/
theorem webhook_lead_iff_signup_witness :
    (ClerkWebhook.POST true (some "id1") (some "ts1") (some "sig1")
        (some ⟨"user.created", Samples.clerkUser⟩)
        (.ok ⟨"L1", true⟩)).leadPayload.isSome = true ∧
    ClerkWebhook.POST true (some "id1") (some "ts1") (some "sig1")
        (some ⟨"user.created", Samples.clerkUserNoEmail⟩)
        (.ok ⟨"L1", true⟩) = ⟨400, none⟩ ∧
    ClerkWebhook.POST true (some "id1") (some "ts1") (some "sig1")
        (some ⟨"user.created", Samples.clerkUserEmptyEmail⟩)
        (.ok ⟨"L1", true⟩) = ⟨400, none⟩ :=
  ⟨(webhook_lead_iff_signup (some "id1") (some "ts1") (some "sig1")
      ⟨"user.created", Samples.clerkUser⟩ (.ok ⟨"L1", true⟩)
      (by decide) (by decide) (by decide)).1.mpr ⟨rfl, by decide⟩,
   (webhook_lead_iff_signup (some "id1") (some "ts1") (some "sig1")
      ⟨"user.created", Samples.clerkUserNoEmail⟩ (.ok ⟨"L1", true⟩)
      (by decide) (by decide) (by decide)).2.1 rfl (by decide),
   (webhook_lead_iff_signup (some "id1") (some "ts1") (some "sig1")
      ⟨"user.created", Samples.clerkUserEmptyEmail⟩ (.ok ⟨"L1", true⟩)
      (by decide) (by decide) (by decide)).2.1 rfl (by decide)⟩

/-- C9 counterexample: a successful request to the property-detail route
issues two external calls (the Salesforce fetch and the Cloudinary image
fetch), not exactly one. -/
theorem single_external_call_cex :
    ((DetailRoute.GET (some "user_1") "T2" (.ok Samples.flipTransaction)
        []).2).length = 2 ∧ (2 : Nat) ≠ 1 := by decide

/-- C9 (amended). Each modelled request flow performs a fixed, bounded,
sequential series of synchronous external calls and then returns — not
always exactly one: the property detail route issues the Salesforce
transaction fetch and, past the tier gates, the Cloudinary image fetch
(two calls on success); the Salesforce-backed listing route issues at
most one SOQL query; the database-backed listing route issues exactly its
two Supabase reads; the upsert endpoint issues the Supabase upsert and,
on success, the sync-status update; and `SalesforceSync.syncProperties`
issues up to four calls, in order Salesforce auth, SOQL query, Supabase
upsert, sync-status update. No flow issues the same call twice within a
request. -/
theorem bounded_external_calls (userId : Option String) (propertyId : String)
    (fr : DetailRoute.FetchResult) (images : List Types.PropertyImage)
    (dealTypes markets : List String) (lim off : Nat)
    (uid2 tok iurl : Option String)
    (outcome : Except String PropertiesRoute.SfListData) (today : String)
    (tierParam lastSync : Option String) (limit2 : Nat)
    (authResult : Except Unit (Option String)) (store : List Database.DbRow)
    (dbError : Option Database.DbError)
    (authOk : Bool) (now : String) (body : List UpsertRoute.UpsertInput)
    (st st2 : Database.Store) (authOutcome : Except String Unit)
    (queryOutcome : Except String (List SalesforceSync.SyncRecord)) :
    ((DetailRoute.GET userId propertyId fr images).2 =
        [.sfGetTransaction propertyId] ∨
     (DetailRoute.GET userId propertyId fr images).2 =
        [.sfGetTransaction propertyId,
         .cloudinaryGetPropertyImages propertyId]) ∧
    ((DetailRoute.GET userId propertyId fr images).2).Nodup ∧
    ((PropertiesRoute.GET dealTypes markets lim off uid2 tok iurl outcome
        today).2 = [] ∨
     (PropertiesRoute.GET dealTypes markets lim off uid2 tok iurl outcome
        today).2 = [.sfQuery]) ∧
    ((PropertiesRoute.GET dealTypes markets lim off uid2 tok iurl outcome
        today).2).Nodup ∧
    (DbRoute.GETWithCalls tierParam limit2 authResult store dbError
        lastSync).2 = [.dbGetProperties, .dbGetLastSyncTime] ∧
    ((DbRoute.GETWithCalls tierParam limit2 authResult store dbError
        lastSync).2).Nodup ∧
    ((UpsertRoute.POST authOk now body st).2.2 = [] ∨
     (UpsertRoute.POST authOk now body st).2.2 = [.dbUpsert] ∨
     (UpsertRoute.POST authOk now body st).2.2 =
        [.dbUpsert, .dbUpdateSyncStatus]) ∧
    ((UpsertRoute.POST authOk now body st).2.2).Nodup ∧
    ((SalesforceSync.syncProperties now authOutcome queryOutcome st2).2.2 =
        [.sfAuth] ∨
     (SalesforceSync.syncProperties now authOutcome queryOutcome st2).2.2 =
        [.sfAuth, .sfQuery] ∨
     (SalesforceSync.syncProperties now authOutcome queryOutcome st2).2.2 =
        [.sfAuth, .sfQuery, .dbUpsert] ∨
     (SalesforceSync.syncProperties now authOutcome queryOutcome st2).2.2 =
        [.sfAuth, .sfQuery, .dbUpsert, .dbUpdateSyncStatus]) ∧
    ((SalesforceSync.syncProperties now authOutcome queryOutcome
        st2).2.2).Nodup := by
  have hdet : (DetailRoute.GET userId propertyId fr images).2 =
      [.sfGetTransaction propertyId] ∨
      (DetailRoute.GET userId propertyId fr images).2 =
      [.sfGetTransaction propertyId,
       .cloudinaryGetPropertyImages propertyId] := by
    cases fr with
    | notFound => exact Or.inl rfl
    | otherError msg => exact Or.inl rfl
    | ok t =>
      simp only [DetailRoute.GET]
      split
      · exact Or.inl rfl
      · split
        · exact Or.inl rfl
        · exact Or.inr rfl
  have hlist : (PropertiesRoute.GET dealTypes markets lim off uid2 tok iurl
      outcome today).2 = [] ∨
      (PropertiesRoute.GET dealTypes markets lim off uid2 tok iurl outcome
        today).2 = [.sfQuery] := by
    cases outcome with
    | error msg =>
      simp only [PropertiesRoute.GET]
      split
      · exact Or.inl rfl
      · exact Or.inr rfl
    | ok data =>
      simp only [PropertiesRoute.GET]
      split
      · exact Or.inl rfl
      · exact Or.inr rfl
  have hups : (UpsertRoute.POST authOk now body st).2.2 = [] ∨
      (UpsertRoute.POST authOk now body st).2.2 = [.dbUpsert] ∨
      (UpsertRoute.POST authOk now body st).2.2 =
        [.dbUpsert, .dbUpdateSyncStatus] := by
    unfold UpsertRoute.POST
    split
    · exact Or.inl rfl
    · cases hw : UpsertRoute.upsertWrite now body st with
      | error e => exact Or.inr (Or.inl rfl)
      | ok s => exact Or.inr (Or.inr rfl)
  have hsync : (SalesforceSync.syncProperties now authOutcome queryOutcome
        st2).2.2 = [.sfAuth] ∨
      (SalesforceSync.syncProperties now authOutcome queryOutcome st2).2.2 =
        [.sfAuth, .sfQuery] ∨
      (SalesforceSync.syncProperties now authOutcome queryOutcome st2).2.2 =
        [.sfAuth, .sfQuery, .dbUpsert] ∨
      (SalesforceSync.syncProperties now authOutcome queryOutcome st2).2.2 =
        [.sfAuth, .sfQuery, .dbUpsert, .dbUpdateSyncStatus] := by
    cases authOutcome with
    | error e => exact Or.inl rfl
    | ok u =>
      cases queryOutcome with
      | error e => exact Or.inr (Or.inl rfl)
      | ok recs =>
        simp only [SalesforceSync.syncProperties]
        split
        · exact Or.inr (Or.inl rfl)
        · cases hdb : Database.syncProperties
              (SalesforceSync.transformProperties now recs) st2 with
          | error e => exact Or.inr (Or.inr (Or.inl rfl))
          | ok s => exact Or.inr (Or.inr (Or.inr rfl))
  refine ⟨hdet, ?_, hlist, ?_, rfl, ?_, hups, ?_, hsync, ?_⟩
  · rcases hdet with h | h <;> rw [h] <;> simp
  · rcases hlist with h | h <;> rw [h] <;> simp
  · show ([ExtCall.dbGetProperties, ExtCall.dbGetLastSyncTime] :
      List ExtCall).Nodup
    decide
  · rcases hups with h | h | h <;> rw [h] <;> decide
  · rcases hsync with h | h | h | h <;> rw [h] <;> decide

/-- C10. Requested tier cannot exceed the authenticated tier in the
database-backed listing route: with no authenticated user the tier passed
to `PropertyDatabase.getProperties` is `'public'` whatever the `tier`
query parameter says (so two requests differing only in that parameter
query the same tier), and an authenticated non-VIP user requesting
`'vip'` is downgraded to `'public'`. -/
theorem effective_tier_capped (tierParam tp1 tp2 : Option String)
    (uid : String) (limit : Nat) (store : List Database.DbRow)
    (e : Option Database.DbError) (ls : Option String) :
    DbRoute.dbEffectiveTier (.ok none) tierParam = "public" ∧
    DbRoute.dbEffectiveTier (.error ()) tierParam = "public" ∧
    DbRoute.dbEffectiveTier (.ok none) tp1 =
      DbRoute.dbEffectiveTier (.ok none) tp2 ∧
    DbRoute.dbEffectiveTier (.ok (some uid)) (some "vip") = "public" ∧
    (DbRoute.GET tierParam limit (.ok none) store e ls).properties =
      Database.getProperties store (some "public") limit e ∧
    (DbRoute.GET (some "vip") limit (.ok (some uid)) store e ls).properties =
      Database.getProperties store (some "public") limit e := by
  exact ⟨rfl, rfl, rfl, rfl, rfl, rfl⟩

end CedarSells
